import Mathlib

/-!
Verification development for the three-maze hallway-experiment core.

The Python sources are shallowly embedded over exact rationals (`ℚ`):
float arithmetic is idealised as exact rational arithmetic, and the
transcendental functions `np.cos` / `np.sin` are abstracted as a
`TrigModel` parameter, so every theorem below holds for the true
cosine/sine as a special case.  Wall-clock readings (`datetime.now()`,
`time.time()`) are passed in explicitly as rational timestamps, and
hardware outcomes (DAQ write success) as booleans.

Embedded sources:
  * `backend/src/experiment_base.py`      (`ExperimentBase.normalize_angle`)
  * `experiments/hallway_experiment.py`   (managed hallway variant)
  * `experiments/standalone_hallway_experiment.py` (standalone variant)
  * `experiments/hallway02_experiment.py` (event-driven variant)
  * `backend/src/hardware/water_delivery.py` (`WaterDelivery.deliver`)
  * `backend/src/main.py`                 (register / unregister handlers)
-/

namespace ThreeMaze

/-- The IEEE-754 double closest to pi, i.e. the exact rational value of
`np.pi` (884279719003555 / 2^48).  All heading arithmetic in the source
uses this constant. -/
def piQ : ℚ := 884279719003555 / 281474976710656

/-- One `while theta > np.pi: theta -= 2 * np.pi` loop from
`ExperimentBase.normalize_angle`, embedded with an explicit iteration
count (the fuel): the loop body is executed while the guard holds, and
`subFuel` below computes the exact number of iterations the loop makes,
so `normalize_sub (subFuel theta) theta` is the loop's result. -/
def normalize_sub : ℕ → ℚ → ℚ
  | 0, theta => theta
  | n + 1, theta => if piQ < theta then normalize_sub n (theta - 2 * piQ) else theta

/-- The second loop, `while theta < -np.pi: theta += 2 * np.pi`. -/
def normalize_add : ℕ → ℚ → ℚ
  | 0, theta => theta
  | n + 1, theta => if theta < -piQ then normalize_add n (theta + 2 * piQ) else theta

/-- Number of iterations of the subtracting loop on input `theta`. -/
def subFuel (theta : ℚ) : ℕ := (⌈(theta - piQ) / (2 * piQ)⌉).toNat

/-- Number of iterations of the adding loop on input `theta`. -/
def addFuel (theta : ℚ) : ℕ := (⌈(-piQ - theta) / (2 * piQ)⌉).toNat

/-- `ExperimentBase.normalize_angle`: run the subtracting loop to
completion, then the adding loop to completion.  The standalone
variant inlines the identical pair of loops. -/
def normalize_angle (theta : ℚ) : ℚ :=
  normalize_add (addFuel (normalize_sub (subFuel theta) theta))
    (normalize_sub (subFuel theta) theta)

/-- Abstraction of `np.cos` / `np.sin`.  The embedding is parametric in
the trigonometric implementation, so theorems quantified over a
`TrigModel` hold in particular for the real cosine and sine. -/
structure TrigModel where
  cosF : ℚ → ℚ
  sinF : ℚ → ℚ

/-- `np.clip(v, lo, hi)`: `min(max(v, lo), hi)`. -/
def npClip (v lo hi : ℚ) : ℚ := min (max v lo) hi

/-- One parsed trackball sample as consumed by the experiments'
`_update_position_from_serial`: the dictionary keys `x`, `y`, `theta`
(combined displacement counts and rotation counts). -/
structure SerialData where
  x : ℚ
  y : ℚ
  theta : ℚ
  deriving DecidableEq

/-- The three config-overridable parameters shared by the hallway
variants (`trialEndY`, `playerRadius`, `maxVelocity`), with the
constructor defaults from the source. -/
structure Params where
  trial_end_y : ℚ := 70
  player_radius : ℚ := 1 / 2
  max_linear_velocity : ℚ := 100
  deriving DecidableEq

/-- `ENCODER_TO_CM = 0.0364` (hallway and standalone variants). -/
def ENCODER_TO_CM : ℚ := 364 / 10000

/-- `DT = 1.0 / 20.0` (all variants). -/
def DT : ℚ := 1 / 20

/-- `ROTATION_SENSITIVITY = 0.05`. -/
def ROTATION_SENSITIVITY : ℚ := 5 / 100

/-- `FALL_RESET_TIME = 5000` milliseconds. -/
def FALL_RESET_TIME : ℚ := 5000

/-- The per-axis linear velocity of the Motion Integrator:
`np.clip(raw * ENCODER_TO_CM / DT, -vmax, vmax)`. -/
def linVel (vmax raw : ℚ) : ℚ := npClip (raw * ENCODER_TO_CM / DT) (-vmax) vmax

end ThreeMaze

namespace ThreeMaze.Hallway

/-- State of `HallwayExperiment` (managed variant,
`hallway_experiment.py`).  `position = [px, py, pz, ptheta]`,
`velocity = [vx, vy, vz, vtheta]`.  `fall_start_time` is a rational
timestamp in seconds. -/
structure State where
  px : ℚ
  py : ℚ
  pz : ℚ
  ptheta : ℚ
  vx : ℚ
  vy : ℚ
  vz : ℚ
  vtheta : ℚ
  trial_number : ℕ
  num_rewards : ℕ
  is_active : Bool
  is_falling : Bool
  is_trial_start : Bool
  is_trial_end : Bool
  fall_start_time : Option ℚ
  deriving DecidableEq

/-- `HallwayExperiment._update_position_from_serial`: clip each axis
velocity, rotate into the world frame using the heading read *before*
this tick's rotation increment, Euler-integrate the position, then
apply the rotation increment and normalize. -/
def update_position_from_serial (T : TrigModel) (p : Params) (s : State)
    (d : SerialData) : State :=
  let vx := linVel p.max_linear_velocity d.x
  let vy := linVel p.max_linear_velocity d.y
  let theta := s.ptheta
  let world_vx := vx * T.cosF theta - vy * T.sinF theta
  let world_vz := -vx * T.sinF theta - vy * T.cosF theta
  { s with
    vx := world_vx, vy := world_vz, vz := 0,
    px := s.px + world_vx * DT,
    py := s.py + world_vz * DT,
    ptheta := normalize_angle (theta + d.theta * ROTATION_SENSITIVITY) }

/-- `HallwayExperiment._reset_player`: `reset_position(0, 0, R, 0)`
(which also zeroes the velocity), then clear the fall state. -/
def reset_player (p : Params) (s : State) : State :=
  { s with
    px := 0, py := 0, pz := p.player_radius, ptheta := 0,
    vx := 0, vy := 0, vz := 0, vtheta := 0,
    fall_start_time := none, is_falling := false }

/-- `HallwayExperiment._check_fall_condition`: falling starts when the
height drops below `PLAYER_RADIUS`; the state recovers as soon as the
height is at or above the same `PLAYER_RADIUS` (there is no separate,
higher recovery threshold in this variant); a fall lasting longer than
`FALL_RESET_TIME` milliseconds resets the player. -/
def check_fall_condition (p : Params) (s : State) (now : ℚ) : State :=
  let s1 :=
    if s.pz < p.player_radius ∧ s.fall_start_time = none then
      { s with fall_start_time := some now, is_falling := true }
    else if p.player_radius ≤ s.pz then
      { s with fall_start_time := none, is_falling := false }
    else s
  match s1.fall_start_time with
  | some t => if FALL_RESET_TIME < (now - t) * 1000 then reset_player p s1 else s1
  | none => s1

/-- `HallwayExperiment._handle_trial_end` run atomically to completion
(the sequential execution of the coroutine): guarded by the
`is_trial_end` reentrancy flag; increments the trial counter; the
water delivery outcome is the external boolean `waterOk`
(`ExperimentBase.deliver_water` increments `num_rewards` by the amount
1 exactly when the hardware call succeeds); then resets the player,
clears `is_trial_end` and sets `is_trial_start`. -/
def handle_trial_end (p : Params) (s : State) (waterOk : Bool) : State :=
  if s.is_trial_end then s
  else
    let s1 := { s with is_trial_end := true, trial_number := s.trial_number + 1 }
    let s2 := if waterOk then { s1 with num_rewards := s1.num_rewards + 1 } else s1
    let s3 := reset_player p s2
    { s3 with is_trial_end := false, is_trial_start := true }

/-- The part of `HallwayExperiment.process_serial_data` that precedes
the trial-end check: integrate the trackball input unless falling, then
run the fall check. -/
def tickMid (T : TrigModel) (p : Params) (s : State) (d : SerialData)
    (now : ℚ) : State :=
  let s1 := if s.is_falling then s else update_position_from_serial T p s d
  check_fall_condition p s1 now

/-- `HallwayExperiment.process_serial_data` run atomically: returns
`None` when inactive, otherwise integrates, checks the fall condition,
handles a trial end when `abs(position[1]) >= TRIAL_END_Y`, and returns
the state snapshot. -/
def process_serial_data (T : TrigModel) (p : Params) (s : State)
    (d : SerialData) (now : ℚ) (waterOk : Bool) : Option State × State :=
  if s.is_active then
    let s2 := tickMid T p s d now
    let s3 := if p.trial_end_y ≤ |s2.py| then handle_trial_end p s2 waterOk else s2
    (some s3, s3)
  else (none, s)

/-- The state right after `HallwayExperiment.initialize`. -/
def initState (p : Params) : State :=
  { px := 0, py := 0, pz := p.player_radius, ptheta := 0,
    vx := 0, vy := 0, vz := 0, vtheta := 0,
    trial_number := 0, num_rewards := 0,
    is_active := true, is_falling := false,
    is_trial_start := true, is_trial_end := false,
    fall_start_time := none }

/-- Whether the asynchronous trial-end handler is suspended at its
`await self.deliver_water(...)` point. -/
inductive Phase where
  | idle : Phase
  | delivering : Phase
  deriving DecidableEq

/-- Concurrent-model state: the experiment state plus the handler
phase.  Under asyncio, `process_serial_data` runs atomically except at
the single `await` inside `_handle_trial_end`; `Phase.delivering`
records a handler suspended there. -/
structure CState where
  base : State
  phase : Phase
  deriving DecidableEq

/-- Scheduler events of the concurrent model: a tick of
`process_serial_data` running up to (and past, when the handler is not
entered) the suspension point, or the completion of a pending water
delivery with the given hardware outcome. -/
inductive Ev where
  | tick (d : SerialData) (now : ℚ) : Ev
  | finish (success : Bool) : Ev
  deriving DecidableEq

/-- Small-step semantics of the managed hallway experiment under
cooperative (asyncio) interleaving.  A `tick` that observes
`abs(position[1]) >= TRIAL_END_Y` with the `is_trial_end` flag clear
enters `_handle_trial_end` (sets the flag, increments `trial_number`)
and suspends at the `await`; with the flag set, the handler returns
immediately.  A `finish` event resumes the suspended handler: on
success `deliver_water` increments `num_rewards`, then the player is
reset and the flag is cleared.  A `finish` with no pending handler
cannot occur in execution and is a no-op. -/
def stepC1 (T : TrigModel) (p : Params) (s : CState) : Ev → CState
  | .tick d now =>
    if s.base.is_active then
      let s2 := tickMid T p s.base d now
      if p.trial_end_y ≤ |s2.py| then
        if s2.is_trial_end then { s with base := s2 }
        else ⟨{ s2 with is_trial_end := true, trial_number := s2.trial_number + 1 },
              .delivering⟩
      else { s with base := s2 }
    else s
  | .finish success =>
    match s.phase with
    | .delivering =>
      let s1 := if success then { s.base with num_rewards := s.base.num_rewards + 1 }
                else s.base
      let s2 := reset_player p s1
      ⟨{ s2 with is_trial_end := false, is_trial_start := true }, .idle⟩
    | .idle => s

/-- Run a list of scheduler events. -/
def runC1 (T : TrigModel) (p : Params) (s : CState) : List Ev → CState
  | [] => s
  | e :: es => runC1 T p (stepC1 T p s e) es

/-- A tick crosses the trial-end boundary when the integrated position
moves from `abs(y) < TRIAL_END_Y` before the tick to
`abs(y) >= TRIAL_END_Y` at the tick's trial-end check. -/
def isCross (T : TrigModel) (p : Params) (s : CState) : Ev → Bool
  | .tick d now =>
    s.base.is_active && decide (|s.base.py| < p.trial_end_y) &&
      decide (p.trial_end_y ≤ |(tickMid T p s.base d now).py|)
  | .finish _ => false

/-- Number of boundary crossings along a run. -/
def crossings (T : TrigModel) (p : Params) (s : CState) : List Ev → ℕ
  | [] => 0
  | e :: es =>
    (if isCross T p s e then 1 else 0) + crossings T p (stepC1 T p s e) es

/-- Potential contributed by a suspended handler. -/
def phaseNat : Phase → ℕ
  | .idle => 0
  | .delivering => 1

/-- Reachability invariant of the concurrent model: the `is_trial_end`
flag is set exactly while a handler is suspended, and while no handler
is pending the position is inside the boundary. -/
def Inv (p : Params) (s : CState) : Prop :=
  (s.base.is_trial_end = true ↔ s.phase = .delivering) ∧
    (s.phase = .idle → |s.base.py| < p.trial_end_y)

end ThreeMaze.Hallway

namespace ThreeMaze.Standalone

/-- State of the standalone experiment
(`standalone_hallway_experiment.py`).  `vz : Option ℚ` embeds the
dual-mode vertical velocity: `none` is the sentinel `None` ("physics
engine controls vertical motion"), `some v` means the backend dictates
it.  `daq_task` records whether the DAQ was initialised; `log_count`
counts the records written by `_log_data`. -/
structure State where
  px : ℚ
  py : ℚ
  pz : ℚ
  ptheta : ℚ
  vx : ℚ
  vy : ℚ
  vz : Option ℚ
  vtheta : ℚ
  trial_number : ℕ
  num_rewards : ℕ
  is_active : Bool
  is_falling : Bool
  is_trial_start : Bool
  is_trial_end : Bool
  fall_start_time : Option ℚ
  daq_task : Bool
  last_logged_serial_timestamp : Option ℤ
  duplicate_count : ℕ
  log_count : ℕ
  deriving DecidableEq

/-- `Experiment._update_position_from_serial` (standalone): identical
integration to the managed variant (same constants), with
`velocity[2] = 0.0` and the normalization loops inlined. -/
def update_position_from_serial (T : TrigModel) (p : Params) (s : State)
    (d : SerialData) : State :=
  let vx := linVel p.max_linear_velocity d.x
  let vy := linVel p.max_linear_velocity d.y
  let theta := s.ptheta
  let world_vx := vx * T.cosF theta - vy * T.sinF theta
  let world_vz := -vx * T.sinF theta - vy * T.cosF theta
  { s with
    vx := world_vx, vy := world_vz, vz := some 0,
    px := s.px + world_vx * DT,
    py := s.py + world_vz * DT,
    ptheta := normalize_angle (theta + d.theta * ROTATION_SENSITIVITY) }

/-- `Experiment._reset_player` (standalone): origin position, zero
velocity with `velocity[2] = None` restoring physics-engine control,
fall state cleared. -/
def reset_player (p : Params) (s : State) : State :=
  { s with
    px := 0, py := 0, pz := p.player_radius, ptheta := 0,
    vx := 0, vy := 0, vz := none, vtheta := 0,
    fall_start_time := none, is_falling := false }

/-- `Experiment._check_fall_condition` (standalone): the fall threshold
is `PLAYER_RADIUS - 0.2`; recovery happens at the same threshold
(`current_z >= FALL_THRESHOLD`), restoring `velocity[2] = None`; a fall
longer than `FALL_RESET_TIME` ms resets the player. -/
def check_fall_condition (p : Params) (s : State) (now : ℚ) : State :=
  let ft := p.player_radius - 1 / 5
  let s1 :=
    if s.pz < ft ∧ s.fall_start_time = none then
      { s with fall_start_time := some now, is_falling := true, vz := some 0 }
    else if ft ≤ s.pz then
      { s with fall_start_time := none, is_falling := false, vz := none }
    else s
  match s1.fall_start_time with
  | some t => if FALL_RESET_TIME < (now - t) * 1000 then reset_player p s1 else s1
  | none => s1

/-- `Experiment._deliver_water` (standalone): direct DAQ control with
no cooldown bookkeeping of any kind.  Returns
`(success, new state, pulsed)`: with no DAQ task it fails without
pulsing; otherwise it pulses and increments `num_rewards` when the
hardware write succeeds (`hwOk`); a hardware exception is modelled as
occurring before the voltage write. -/
def deliver_water (s : State) (hwOk : Bool) : Bool × State × Bool :=
  if s.daq_task = false then (false, s, false)
  else if hwOk then (true, { s with num_rewards := s.num_rewards + 1 }, true)
  else (false, s, false)

/-- `Experiment._handle_trial_end` (standalone), atomically: same
reentrancy-flag pattern as the managed variant, with `_deliver_water`
for the reward. -/
def handle_trial_end (p : Params) (s : State) (hwOk : Bool) : State :=
  if s.is_trial_end then s
  else
    let s1 := { s with is_trial_end := true, trial_number := s.trial_number + 1 }
    let s2 := (deliver_water s1 hwOk).2.1
    let s3 := reset_player p s2
    { s3 with is_trial_end := false, is_trial_start := true }

/-- One parsed Teensy frame as buffered by the standalone serial read
loop: the integer microsecond timestamp (the de-duplication key) and
the combined displacement fields consumed by the integrator. -/
structure Frame where
  timestamp : ℤ
  data : SerialData
  deriving DecidableEq

/-- The motion-and-events part of `Experiment.process_serial_data`
(standalone): integrate the frame unless falling, check the fall
condition, handle a trial end past the boundary.  Runs on every poll
of an active experiment, before the logging decision. -/
def motion_step (T : TrigModel) (p : Params) (s : State) (f : Frame)
    (now : ℚ) (hwOk : Bool) : State :=
  let s1 := if s.is_falling then s else update_position_from_serial T p s f.data
  let s2 := check_fall_condition p s1 now
  if p.trial_end_y ≤ |s2.py| then handle_trial_end p s2 hwOk else s2

/-- `Experiment.process_serial_data` (standalone), atomically: `None`
when inactive or when the serial buffer is empty; otherwise run
`motion_step`, then log exactly when the frame timestamp differs from
`last_logged_serial_timestamp` (otherwise count a duplicate). -/
def process_serial_data (T : TrigModel) (p : Params) (s : State)
    (buf : Option Frame) (now : ℚ) (hwOk : Bool) : Option State × State :=
  if s.is_active then
    match buf with
    | none => (none, s)
    | some f =>
      let s3 := motion_step T p s f now hwOk
      let s4 :=
        if s3.last_logged_serial_timestamp ≠ some f.timestamp then
          { s3 with
            log_count := s3.log_count + 1,
            last_logged_serial_timestamp := some f.timestamp,
            duplicate_count := 0 }
        else { s3 with duplicate_count := s3.duplicate_count + 1 }
      (some s4, s4)
  else (none, s)

end ThreeMaze.Standalone

namespace ThreeMaze.HW02

/-- `ENCODER_TO_CM = 0.0349` (hallway02 event-driven variant). -/
def ENCODER_TO_CM : ℚ := 349 / 10000

/-- State of the event-driven experiment (`hallway02_experiment.py`):
positions come from the frontend physics engine; `realtime_theta` is
the backend-accumulated heading used for velocity calculation;
`trial_start_time` is the trial timer restarted by `_handle_trial_end`;
`daq_task` records whether the persistent DAQ task is available to
`_deliver_water`.  The Python object's `velocity` list is write-only
(initialised and re-zeroed by `_reset_player`, never read for control
flow), and the data file, flush, pending-serial map and counters such
as `position_update_count` are file/bookkeeping I/O; none of these
feed back into the fields below, so they are not modelled. -/
structure State where
  px : ℚ
  py : ℚ
  pz : ℚ
  ptheta : ℚ
  trial_number : ℕ
  num_rewards : ℕ
  fall_count : ℕ
  is_active : Bool
  is_falling : Bool
  fall_start_time : Option ℚ
  realtime_theta : ℚ
  trial_start_time : ℚ
  daq_task : Bool
  deriving DecidableEq

/-- The motion event sent to the frontend: world-frame velocity with
`vy = None` (vertical controlled by the physics engine) and the
rotation increment. -/
structure MotionOut where
  vx : ℚ
  vy : Option ℚ
  vz : ℚ
  deltaTheta : ℚ
  deriving DecidableEq

/-- `Experiment._calculate_standardized_motion_realtime`: clip the
per-axis velocities, rotate them into the world frame using
`self.realtime_theta` (which the serial read loop has *already*
incremented for this tick), and zero everything while falling. -/
def calculate_standardized_motion_realtime (T : TrigModel) (p : Params)
    (s : State) (d : SerialData) : MotionOut :=
  let vx := npClip (d.x * ENCODER_TO_CM / DT) (-p.max_linear_velocity)
    p.max_linear_velocity
  let vy := npClip (d.y * ENCODER_TO_CM / DT) (-p.max_linear_velocity)
    p.max_linear_velocity
  let theta := s.realtime_theta
  let world_vx := -vx * T.cosF theta - vy * T.sinF theta
  let world_vz := vx * T.sinF theta - vy * T.cosF theta
  let dtheta := d.theta * (5 / 100)
  if s.is_falling then { vx := 0, vy := none, vz := 0, deltaTheta := 0 }
  else { vx := world_vx, vy := none, vz := world_vz, deltaTheta := dtheta }

/-- The per-frame body of `Experiment._serial_read_loop` (motion part):
`realtime_theta += raw_theta * 0.05` happens *before*
`_calculate_standardized_motion_realtime` is called, so the world
transformation uses the heading after this tick's rotation increment
("First, update realtime_theta BEFORE calculating velocity"). -/
def serialTick (T : TrigModel) (p : Params) (s : State) (d : SerialData) :
    State × MotionOut :=
  let s1 := { s with realtime_theta := s.realtime_theta + d.theta * (5 / 100) }
  (s1, calculate_standardized_motion_realtime T p s1 d)

/-- The fall-detection step of `Experiment.process_position_update`
(lines 449-465): `FALL_THRESHOLD = PLAYER_RADIUS * 0.4`,
`RECOVERY_THRESHOLD = PLAYER_RADIUS * 0.5`; a height below the fall
threshold while not tracking a fall starts one; a height at or above
the recovery threshold while falling clears it; anything in between
leaves the fall state untouched. -/
def fall_check (p : Params) (s : State) (now : ℚ) : State :=
  let ft := p.player_radius * (4 / 10)
  let rt := p.player_radius * (5 / 10)
  if s.pz < ft ∧ s.fall_start_time = none then
    { s with
      fall_start_time := some now, is_falling := true,
      fall_count := s.fall_count + 1 }
  else if rt ≤ s.pz ∧ s.is_falling = true then
    { s with fall_start_time := none, is_falling := false }
  else s

/-- `Experiment._deliver_water` (hallway02): fails when no persistent
DAQ task is available; otherwise pulses it (`hwOk` stands for the
hardware write raising no exception) and increments `num_rewards` on
success.  No cooldown check. -/
def deliver_water (s : State) (hwOk : Bool) : Bool × State :=
  if s.daq_task = false then (false, s)
  else if hwOk then (true, { s with num_rewards := s.num_rewards + 1 })
  else (false, s)

/-- `Experiment._handle_trial_end` (hallway02): increments the trial
counter, delivers the water reward, and restarts the trial timer.
Position reset and data logging are the caller's job. -/
def handle_trial_end (s : State) (now : ℚ) (hwOk : Bool) : State :=
  let s1 := { s with trial_number := s.trial_number + 1 }
  let s2 := (deliver_water s1 hwOk).2
  { s2 with trial_start_time := now }

/-- `Experiment._reset_player` (hallway02): position back to
`[0, 0, PLAYER_RADIUS, 0]`, `realtime_theta` zeroed, fall tracking
cleared (the `velocity` list it also zeroes is write-only state, see
`State`). -/
def reset_player (p : Params) (s : State) : State :=
  { s with
    px := 0, py := 0, pz := p.player_radius, ptheta := 0,
    realtime_theta := 0, fall_start_time := none, is_falling := false }

/-- A frontend position payload: `x`, `y` (height), `z` (forward/back,
the backend's Y axis) and `theta`, as in the `data` dict of
`process_position_update`. -/
structure PosUpdate where
  x : ℚ
  y : ℚ
  z : ℚ
  theta : ℚ
  deriving DecidableEq

/-- The position dict returned by `process_position_update`: either a
teleport (`action: 'set'`, unlocked, with the reset coordinates; its
constant zero `velocity` payload is omitted) or an echo of the inbound
data (`action: 'update'`) with the `lockMovement` flag. -/
inductive PosResponse where
  | set (x y z theta : ℚ) : PosResponse
  | update (lockMovement : Bool) (d : PosUpdate) : PosResponse
  deriving DecidableEq

/-- `Experiment.process_position_update` (hallway02, lines 406-536).
When inactive, echo the data unchanged.  Otherwise: overwrite the
backend position from the frontend payload (frontend `z` is backend
`py`, frontend `y` is the height `pz`); run the fall check
(`fall_check`); trigger a fall-timeout reset when a tracked fall is
older than `FALL_RESET_TIME` milliseconds (strict `>`); trigger a
trial-end reset when `|py| >= TRIAL_END_Y`, in which case — only if a
sensor frame has been seen (`hasSensor`, the `self.last_sensor_data`
guard on the logging block) — `_handle_trial_end` runs first; finally,
when either trigger fired, `_reset_player` runs and a teleport response
is returned, else the echo is returned with movement locked exactly
while falling.  Data-file writes and the pending-map cleanup are I/O
(see `State`). -/
def process_position_update (p : Params) (s : State) (d : PosUpdate)
    (now : ℚ) (hasSensor hwOk : Bool) : PosResponse × State :=
  if s.is_active = false then (.update false d, s)
  else
    let s1 := fall_check p
      { s with px := d.x, py := d.z, pz := d.y, ptheta := d.theta } now
    let fall_timeout_triggered :=
      match s1.fall_start_time with
      | some t => decide (FALL_RESET_TIME < (now - t) * 1000)
      | none => false
    let trial_end_triggered := decide (p.trial_end_y ≤ |s1.py|)
    let need_reset := fall_timeout_triggered || trial_end_triggered
    let s2 := if hasSensor && trial_end_triggered then
      handle_trial_end s1 now hwOk else s1
    if need_reset = true then
      (.set 0 p.player_radius 0 0, reset_player p s2)
    else if s2.is_falling = true then (.update true d, s2)
    else (.update false d, s2)

/-- Fold a sequence of position updates, each with its wall-clock time
and its `hasSensor` / `hwOk` environment bits. -/
def ppuRun (p : Params) (s : State) : List (PosUpdate × ℚ × Bool × Bool) → State
  | [] => s
  | e :: l =>
    ppuRun p (process_position_update p s e.1 e.2.1 e.2.2.1 e.2.2.2).2 l

/-- `Experiment.process_serial_data` (hallway02): pure status query —
`None` when inactive, otherwise the current state snapshot; no state is
mutated. -/
def process_serial_data (s : State) : Option State × State :=
  if s.is_active then (some s, s) else (none, s)

end ThreeMaze.HW02

namespace ThreeMaze.Water

/-- State of `WaterDelivery` (`water_delivery.py`).  Times are in
milliseconds, matching `time.time() * 1000` in the source. -/
structure State where
  is_initialized : Bool
  is_active : Bool
  voltage : ℚ
  duration_ms : ℚ
  cooldown_ms : ℚ
  last_delivery_time : ℚ
  delivery_count : ℕ
  deriving DecidableEq

/-- Result dictionary of `WaterDelivery.deliver`. -/
inductive DeliverResult where
  | failure (error : String) (waitTime : Option ℚ) : DeliverResult
  | delivered (amount : ℕ) (duration : ℚ) (deliveryCount : ℕ)
      (nextAvailable : ℚ) : DeliverResult
  deriving DecidableEq

/-- `WaterDelivery.deliver`: fails when not initialized or inactive;
fails fast with reason `Cooldown active` and the remaining wait time
when called within `cooldown_ms` of the last successful delivery,
without touching `last_delivery_time` or `delivery_count` and without
pulsing; otherwise pulses and updates the bookkeeping (a hardware
exception, `hwOk = false`, is modelled as occurring before the pulse
and reported with a placeholder error string).  Returns
`(result, new state, pulsed)`. -/
def deliver (s : State) (amount : ℕ) (now : ℚ) (hwOk : Bool) :
    DeliverResult × State × Bool :=
  if s.is_initialized = false ∨ s.is_active = false then
    (.failure "Water delivery not initialized or not active" none, s, false)
  else if now - s.last_delivery_time < s.cooldown_ms then
    (.failure "Cooldown active" (some (s.cooldown_ms - (now - s.last_delivery_time))),
      s, false)
  else if hwOk then
    (.delivered amount s.duration_ms (s.delivery_count + 1) (now + s.cooldown_ms),
      { s with last_delivery_time := now, delivery_count := s.delivery_count + 1 },
      true)
  else (.failure "hardware error" none, s, false)

end ThreeMaze.Water

namespace ThreeMaze.Server

/-- An `experiment_register` request (`data.get("experimentId")` and
`data.get("filename")`; a missing or falsy value is `none`). -/
structure RegisterRequest where
  experimentId : Option String
  filename : Option String
  deriving DecidableEq

/-- Responses of the backend handlers relevant to registration:
`experimentError` carries the error string and, when present, the
`activeExperiment` field naming the currently active experiment. -/
inductive Response where
  | experimentError (error : String) (activeExperiment : Option String) : Response
  | experimentRegistered (experimentId : String) : Response
  | experimentUnregistered (experimentId : String) : Response
  deriving DecidableEq

/-- The `activeExperiment` field of an error response, if any. -/
def namedActiveExperiment : Response → Option String
  | .experimentError _ a => a
  | _ => none

/-- Whether a response is an `experiment_error`. -/
def isErrorResponse : Response → Bool
  | .experimentError _ _ => true
  | _ => false

/-- The `BackendServer` state relevant to session handling: the active
experiment (its `experiment_id` paired with the whole experiment state,
kept abstract as `α` so that "unchanged" covers every field) and
whether the autonomous background task is running. -/
structure ServerState (α : Type) where
  activeExperiment : Option (String × α)
  autonomousTask : Bool
  deriving DecidableEq

/-- The guard prefix of `BackendServer._handle_experiment_register`:
first the missing-field check, then the already-active check (which
returns the error naming the active experiment and leaves the state
untouched); only with no active session does control reach the rest of
the handler — dynamic loading, construction and initialization — which
is abstracted as the continuation `proceed`. -/
def handleExperimentRegister {α : Type} (st : ServerState α)
    (req : RegisterRequest)
    (proceed : ServerState α → RegisterRequest → Response × ServerState α) :
    Response × ServerState α :=
  if req.experimentId = none ∧ req.filename = none then
    (.experimentError "No experiment ID or filename provided" none, st)
  else
    match st.activeExperiment with
    | some (eid, _) =>
      (.experimentError "Another experiment is already active" (some eid), st)
    | none => proceed st req

/-- `BackendServer._handle_experiment_unregister`: with an active
experiment, stop the background task, terminate it and clear the slot;
with none, return an `experiment_error` response and change nothing. -/
def handleExperimentUnregister {α : Type} (st : ServerState α) :
    Response × ServerState α :=
  match st.activeExperiment with
  | some (eid, _) =>
    (.experimentUnregistered eid,
      { st with activeExperiment := none, autonomousTask := false })
  | none => (.experimentError "No active Python experiment" none, st)

/-- The experiment-cleanup block of `BackendServer.handle_client` run
when the last viewer disconnects: guarded by
`if self.active_experiment:`, so with no active experiment it does
nothing and produces no response. -/
def disconnectCleanup {α : Type} (st : ServerState α) : ServerState α :=
  match st.activeExperiment with
  | some _ => { st with activeExperiment := none, autonomousTask := false }
  | none => st

/-- The exception-cleanup block of
`BackendServer._handle_experiment_register`: cancel the autonomous task
if one is running, terminate and clear a partially-created experiment
if present; with neither, it changes nothing. -/
def registerFailureCleanup {α : Type} (st : ServerState α) : ServerState α :=
  let st1 := if st.autonomousTask then { st with autonomousTask := false } else st
  match st1.activeExperiment with
  | some _ => { st1 with activeExperiment := none }
  | none => st1

end ThreeMaze.Server

namespace ThreeMaze

/-- Trig model used by concrete witnesses: heading 0 everywhere
(`cos = 1`, `sin = 0`), i.e. straight-ahead motion. -/
def trigStraight : TrigModel := ⟨fun _ => 1, fun _ => 0⟩

/-- Trig model used by concrete counterexamples: the identity in both
components, which separates distinct heading arguments. -/
def trigId : TrigModel := ⟨fun q => q, fun q => q⟩

/-- The default parameters (no config overrides). -/
def pDef : Params := {}

end ThreeMaze

/-! ### Concrete fixtures used by witnesses and counterexamples -/

namespace ThreeMaze.Hallway

/-- The fresh state with the experiment stopped. -/
def sInactive : State := { initState pDef with is_active := false }

/-- The state right after a tick at height `0.3` started a fall at
time `0` (see `c2_counterexample`). -/
def sDipped : State :=
  { initState pDef with pz := 3 / 10, fall_start_time := some 0, is_falling := true }

/-- A forward push: 1000 raw counts on the y axis, nothing else. -/
def dPush : SerialData := ⟨0, 1000, 0⟩

/-- Parameters with the config override `trialEndY = 5` (one push away
from the boundary under `trigStraight`). -/
def pSmall : Params := { trial_end_y := 5 }

/-- A run crossing the boundary exactly once under `pSmall`: the first
push reaches `py = -5` and enters the handler; the second tick observes
`abs(py) >= 5` while the delivery is pending (and is skipped); then the
delivery completes. -/
def c1Trace : List Ev := [Ev.tick dPush 0, Ev.tick dPush 0, Ev.finish true]

/-- An idle state one push away from the boundary. -/
def cEntry : CState := ⟨{ initState pDef with py := -69 }, Phase.idle⟩

/-- A state whose trial-end handler is suspended at the delivery. -/
def cDelivering : CState :=
  ⟨{ initState pDef with is_trial_end := true, py := -70 }, Phase.delivering⟩

end ThreeMaze.Hallway

namespace ThreeMaze.Standalone

/-- A fresh active standalone state with the DAQ initialised. -/
def sBase : State :=
  { px := 0, py := 0, pz := 1 / 2, ptheta := 0,
    vx := 0, vy := 0, vz := none, vtheta := 0,
    trial_number := 0, num_rewards := 0,
    is_active := true, is_falling := false,
    is_trial_start := true, is_trial_end := false,
    fall_start_time := none, daq_task := true,
    last_logged_serial_timestamp := none,
    duplicate_count := 0, log_count := 0 }

/-- The same state with the experiment stopped. -/
def sInactive : State := { sBase with is_active := false }

/-- A parsed frame with timestamp 1000 and a small forward push. -/
def frameA : Frame := ⟨1000, ⟨0, 1, 0⟩⟩

/-- `sBase` after a record for timestamp 1000 has been logged. -/
def sLoggedA : State :=
  { sBase with last_logged_serial_timestamp := some 1000, log_count := 1 }

/-- Forget the de-duplication key (used to compare a duplicate tick
with the same tick on a fresh timestamp). -/
def freshen (s : State) : State := { s with last_logged_serial_timestamp := none }

end ThreeMaze.Standalone

namespace ThreeMaze.HW02

/-- A fresh grounded event-driven state. -/
def sGrounded : State :=
  { px := 0, py := 0, pz := 1 / 2, ptheta := 0,
    trial_number := 0, num_rewards := 0, fall_count := 0,
    is_active := true, is_falling := false,
    fall_start_time := none, realtime_theta := 0,
    trial_start_time := 0, daq_task := true }

/-- The same state with the experiment stopped. -/
def sInactive : State := { sGrounded with is_active := false }

/-- The grounded state mid-fall: a fall tracked since time `0`. -/
def sFalling : State :=
  { sGrounded with is_falling := true, fall_start_time := some 0 }

end ThreeMaze.HW02

namespace ThreeMaze.Water

/-- An initialised, active `WaterDelivery` with the default
configuration and one delivery epoch at time 0. -/
def wsReady : State :=
  { is_initialized := true, is_active := true, voltage := 5,
    duration_ms := 25, cooldown_ms := 1000,
    last_delivery_time := 0, delivery_count := 0 }

end ThreeMaze.Water

namespace ThreeMaze.Server

/-- A server hosting an active `hallway_experiment` session. -/
def stActive : ServerState Unit := ⟨some ("hallway_experiment", ()), true⟩

/-- A server with no active session and no background task. -/
def stEmpty : ServerState Unit := ⟨none, false⟩

/-- A well-formed register request carrying a filename. -/
def reqFile : RegisterRequest := ⟨none, some "standalone_hallway_experiment.py"⟩

/-- A register request with neither an experiment id nor a filename. -/
def reqEmptyFields : RegisterRequest := ⟨none, none⟩

/-- A stand-in for the rest of the registration handler. -/
def proceedStub : ServerState Unit → RegisterRequest → Response × ServerState Unit :=
  fun st _ => (Response.experimentRegistered "stub", st)

end ThreeMaze.Server

/-! ## Theorems -/

namespace ThreeMaze

theorem piQ_pos : 0 < piQ := by norm_num [piQ]

theorem normalize_sub_of_le {theta : ℚ} (h : theta ≤ piQ) (n : ℕ) :
    normalize_sub n theta = theta := by
  cases n with
  | zero => rfl
  | succ n => simp [normalize_sub, not_lt.mpr h]

theorem normalize_add_of_ge {theta : ℚ} (h : -piQ ≤ theta) (n : ℕ) :
    normalize_add n theta = theta := by
  cases n with
  | zero => rfl
  | succ n => simp [normalize_add, not_lt.mpr h]

theorem normalize_sub_le (n : ℕ) (theta : ℚ) (h : subFuel theta ≤ n) :
    normalize_sub n theta ≤ piQ := by
  induction n generalizing theta with
  | zero =>
    have h0 : (⌈(theta - piQ) / (2 * piQ)⌉ : ℤ) ≤ 0 := by
      have := Nat.le_zero.mp h
      unfold subFuel at this
      omega
    have h2 : (theta - piQ) / (2 * piQ) ≤ ((0 : ℤ) : ℚ) := Int.ceil_le.mp h0
    have hpos : (0 : ℚ) < 2 * piQ := by linarith [piQ_pos]
    have h3 : theta - piQ ≤ 0 := by
      have := (div_le_iff₀ hpos).mp (by simpa using h2)
      linarith
    simpa [normalize_sub] using by linarith
  | succ n ih =>
    by_cases hgt : piQ < theta
    · have hpos : (0 : ℚ) < 2 * piQ := by linarith [piQ_pos]
      have hceil : ⌈(theta - 2 * piQ - piQ) / (2 * piQ)⌉ =
          ⌈(theta - piQ) / (2 * piQ)⌉ - 1 := by
        have harg : (theta - 2 * piQ - piQ) / (2 * piQ) =
            (theta - piQ) / (2 * piQ) - 1 := by
          field_simp
          ring
        rw [harg, Int.ceil_sub_one]
      have hcpos : 0 < ⌈(theta - piQ) / (2 * piQ)⌉ :=
        Int.ceil_pos.mpr (div_pos (by linarith) hpos)
      have hfuel : subFuel (theta - 2 * piQ) ≤ n := by
        unfold subFuel at h ⊢
        rw [hceil]
        omega
      simpa [normalize_sub, hgt] using ih _ hfuel
    · simpa [normalize_sub, hgt] using not_lt.mp hgt

theorem normalize_sub_ge (n : ℕ) (theta : ℚ) (h : -piQ ≤ theta) :
    -piQ ≤ normalize_sub n theta := by
  induction n generalizing theta with
  | zero => simpa [normalize_sub] using h
  | succ n ih =>
    by_cases hgt : piQ < theta
    · have : -piQ ≤ theta - 2 * piQ := by linarith [piQ_pos]
      simpa [normalize_sub, hgt] using ih _ this
    · simpa [normalize_sub, hgt] using h

theorem normalize_add_ge (n : ℕ) (theta : ℚ) (h : addFuel theta ≤ n) :
    -piQ ≤ normalize_add n theta := by
  induction n generalizing theta with
  | zero =>
    have h0 : (⌈(-piQ - theta) / (2 * piQ)⌉ : ℤ) ≤ 0 := by
      have := Nat.le_zero.mp h
      unfold addFuel at this
      omega
    have h2 : (-piQ - theta) / (2 * piQ) ≤ ((0 : ℤ) : ℚ) := Int.ceil_le.mp h0
    have hpos : (0 : ℚ) < 2 * piQ := by linarith [piQ_pos]
    have h3 : -piQ - theta ≤ 0 := by
      have := (div_le_iff₀ hpos).mp (by simpa using h2)
      linarith
    simpa [normalize_add] using by linarith
  | succ n ih =>
    by_cases hlt : theta < -piQ
    · have hpos : (0 : ℚ) < 2 * piQ := by linarith [piQ_pos]
      have hceil : ⌈(-piQ - (theta + 2 * piQ)) / (2 * piQ)⌉ =
          ⌈(-piQ - theta) / (2 * piQ)⌉ - 1 := by
        have harg : (-piQ - (theta + 2 * piQ)) / (2 * piQ) =
            (-piQ - theta) / (2 * piQ) - 1 := by
          field_simp
          ring
        rw [harg, Int.ceil_sub_one]
      have hcpos : 0 < ⌈(-piQ - theta) / (2 * piQ)⌉ :=
        Int.ceil_pos.mpr (div_pos (by linarith) hpos)
      have hfuel : addFuel (theta + 2 * piQ) ≤ n := by
        unfold addFuel at h ⊢
        rw [hceil]
        omega
      simpa [normalize_add, hlt] using ih _ hfuel
    · simpa [normalize_add, hlt] using not_lt.mp hlt

theorem normalize_add_le (n : ℕ) (theta : ℚ) (h : theta ≤ piQ) :
    normalize_add n theta ≤ piQ := by
  induction n generalizing theta with
  | zero => simpa [normalize_add] using h
  | succ n ih =>
    by_cases hlt : theta < -piQ
    · have : theta + 2 * piQ ≤ piQ := by linarith [piQ_pos]
      simpa [normalize_add, hlt] using ih _ this
    · simpa [normalize_add, hlt] using h

theorem normalize_angle_mem (theta : ℚ) :
    -piQ ≤ normalize_angle theta ∧ normalize_angle theta ≤ piQ := by
  unfold normalize_angle
  refine ⟨normalize_add_ge _ _ le_rfl, normalize_add_le _ _ ?_⟩
  exact normalize_sub_le _ _ le_rfl

theorem normalize_angle_of_mem {theta : ℚ} (h1 : -piQ ≤ theta) (h2 : theta ≤ piQ) :
    normalize_angle theta = theta := by
  unfold normalize_angle
  rw [normalize_sub_of_le h2, normalize_add_of_ge h1]

end ThreeMaze

/-- Claim C3 (amended): `normalize_angle` maps every input heading into
the closed interval `[-piQ, piQ]` (not the half-open `(-piQ, piQ]`), and
it is idempotent: applying it to its own output returns the same value. -/
theorem c3_theorem (theta : ℚ) :
    (-ThreeMaze.piQ ≤ ThreeMaze.normalize_angle theta ∧
      ThreeMaze.normalize_angle theta ≤ ThreeMaze.piQ) ∧
    ThreeMaze.normalize_angle (ThreeMaze.normalize_angle theta) =
      ThreeMaze.normalize_angle theta := by
  refine ⟨ThreeMaze.normalize_angle_mem theta, ?_⟩
  exact ThreeMaze.normalize_angle_of_mem (ThreeMaze.normalize_angle_mem theta).1
    (ThreeMaze.normalize_angle_mem theta).2

/-- Claim C3 counterexample: the input `-piQ` (the float value `-np.pi`)
is returned unchanged, and it does not lie in the half-open interval
`(-piQ, piQ]` claimed by the spec: the lower endpoint is attained. -/
theorem c3_counterexample :
    ThreeMaze.normalize_angle (-ThreeMaze.piQ) = -ThreeMaze.piQ ∧
    ¬ (-ThreeMaze.piQ < ThreeMaze.normalize_angle (-ThreeMaze.piQ) ∧
        ThreeMaze.normalize_angle (-ThreeMaze.piQ) ≤ ThreeMaze.piQ) := by
  have h : ThreeMaze.normalize_angle (-ThreeMaze.piQ) = -ThreeMaze.piQ :=
    ThreeMaze.normalize_angle_of_mem le_rfl (by linarith [ThreeMaze.piQ_pos])
  exact ⟨h, by rw [h]; simp⟩

namespace ThreeMaze

theorem linVel_bounds (vmax raw : ℚ) (h : 0 < vmax) :
    |linVel vmax raw| ≤ vmax ∧
    (raw = 0 → linVel vmax raw = 0) ∧
    (0 < raw → 0 ≤ linVel vmax raw) ∧
    (raw < 0 → linVel vmax raw ≤ 0) := by
  have hconv : (0 : ℚ) < ENCODER_TO_CM / DT := by norm_num [ENCODER_TO_CM, DT]
  unfold linVel npClip
  refine ⟨abs_le.mpr ⟨le_min (le_max_right _ _) (by linarith), min_le_right _ _⟩,
    ?_, ?_, ?_⟩
  · intro h0
    subst h0
    simp only [zero_mul, zero_div]
    rw [max_eq_left (by linarith), min_eq_left (by linarith)]
  · intro hraw
    have hv : 0 ≤ raw * ENCODER_TO_CM / DT := by
      have := mul_pos hraw (by norm_num [ENCODER_TO_CM] : (0 : ℚ) < ENCODER_TO_CM)
      have hdt : (0 : ℚ) < DT := by norm_num [DT]
      positivity
    exact le_min (le_trans hv (le_max_left _ _)) (by linarith)
  · intro hraw
    have hv : raw * ENCODER_TO_CM / DT ≤ 0 := by
      have hc : (0 : ℚ) < ENCODER_TO_CM := by norm_num [ENCODER_TO_CM]
      have hdt : (0 : ℚ) < DT := by norm_num [DT]
      have := mul_neg_of_neg_of_pos hraw hc
      exact le_of_lt (div_neg_of_neg_of_pos this hdt)
    exact le_trans (min_le_left _ _) (max_le hv (by linarith))

end ThreeMaze

/-- Claim C8: the per-axis linear velocity
`clip(raw * ENCODER_TO_CM / DT, -vmax, vmax)` never exceeds the
configured maximum in absolute value and preserves the sign of the raw
displacement; and this clipped value is exactly the local-frame
velocity that both the managed and the standalone integrators rotate
and integrate on every tick (their stored world velocities are linear
combinations of the clipped axis velocities). -/
theorem c8_theorem :
    (∀ (vmax raw : ℚ), 0 < vmax →
      |ThreeMaze.linVel vmax raw| ≤ vmax ∧
      (raw = 0 → ThreeMaze.linVel vmax raw = 0) ∧
      (0 < raw → 0 ≤ ThreeMaze.linVel vmax raw) ∧
      (raw < 0 → ThreeMaze.linVel vmax raw ≤ 0)) ∧
    (∀ (T : ThreeMaze.TrigModel) (p : ThreeMaze.Params)
        (s : ThreeMaze.Hallway.State) (d : ThreeMaze.SerialData),
      (ThreeMaze.Hallway.update_position_from_serial T p s d).vx =
        ThreeMaze.linVel p.max_linear_velocity d.x * T.cosF s.ptheta -
          ThreeMaze.linVel p.max_linear_velocity d.y * T.sinF s.ptheta ∧
      (ThreeMaze.Hallway.update_position_from_serial T p s d).vy =
        -ThreeMaze.linVel p.max_linear_velocity d.x * T.sinF s.ptheta -
          ThreeMaze.linVel p.max_linear_velocity d.y * T.cosF s.ptheta) ∧
    (∀ (T : ThreeMaze.TrigModel) (p : ThreeMaze.Params)
        (s : ThreeMaze.Standalone.State) (d : ThreeMaze.SerialData),
      (ThreeMaze.Standalone.update_position_from_serial T p s d).vx =
        ThreeMaze.linVel p.max_linear_velocity d.x * T.cosF s.ptheta -
          ThreeMaze.linVel p.max_linear_velocity d.y * T.sinF s.ptheta ∧
      (ThreeMaze.Standalone.update_position_from_serial T p s d).vy =
        -ThreeMaze.linVel p.max_linear_velocity d.x * T.sinF s.ptheta -
          ThreeMaze.linVel p.max_linear_velocity d.y * T.cosF s.ptheta) := by
  refine ⟨ThreeMaze.linVel_bounds, fun T p s d => ⟨rfl, rfl⟩, fun T p s d => ⟨rfl, rfl⟩⟩

/-- Claim C8 witness: concrete clamp evaluations through `c8_theorem`. -/
theorem c8_witness :
    |ThreeMaze.linVel 100 (-3)| ≤ 100 ∧ ThreeMaze.linVel 100 (-3) ≤ 0 ∧
    ThreeMaze.linVel 100 0 = 0 ∧ 0 ≤ ThreeMaze.linVel 100 50000 := by
  have h1 := c8_theorem.1 100 (-3) (by norm_num)
  have h2 := c8_theorem.1 100 0 (by norm_num)
  have h3 := c8_theorem.1 100 50000 (by norm_num)
  exact ⟨h1.1, h1.2.2.2 (by norm_num), h2.2.1 rfl, h3.2.2.1 (by norm_num)⟩

/-- Claim C10: with `is_active` false, `process_serial_data` of every
variant returns `None` and leaves the whole experiment state unchanged
(no reward, no log record, no position or flag change). -/
theorem c10_theorem (T : ThreeMaze.TrigModel) (p : ThreeMaze.Params)
    (sh : ThreeMaze.Hallway.State) (d : ThreeMaze.SerialData) (now : ℚ) (w : Bool)
    (ss : ThreeMaze.Standalone.State) (buf : Option ThreeMaze.Standalone.Frame)
    (s2 : ThreeMaze.HW02.State)
    (hh : sh.is_active = false) (hs : ss.is_active = false)
    (h2 : s2.is_active = false) :
    ThreeMaze.Hallway.process_serial_data T p sh d now w = (none, sh) ∧
    ThreeMaze.Standalone.process_serial_data T p ss buf now w = (none, ss) ∧
    ThreeMaze.HW02.process_serial_data s2 = (none, s2) := by
  refine ⟨?_, ?_, ?_⟩
  · simp [ThreeMaze.Hallway.process_serial_data, hh]
  · simp [ThreeMaze.Standalone.process_serial_data, hs]
  · simp [ThreeMaze.HW02.process_serial_data, h2]

/-- Claim C10 witness: the inactive no-op at concrete states. -/
theorem c10_witness :
    ThreeMaze.Hallway.process_serial_data ThreeMaze.trigStraight ThreeMaze.pDef
      ThreeMaze.Hallway.sInactive ThreeMaze.Hallway.dPush 0 true =
      (none, ThreeMaze.Hallway.sInactive) ∧
    ThreeMaze.Standalone.process_serial_data ThreeMaze.trigStraight ThreeMaze.pDef
      ThreeMaze.Standalone.sInactive (some ThreeMaze.Standalone.frameA) 0 true =
      (none, ThreeMaze.Standalone.sInactive) ∧
    ThreeMaze.HW02.process_serial_data ThreeMaze.HW02.sInactive =
      (none, ThreeMaze.HW02.sInactive) :=
  c10_theorem ThreeMaze.trigStraight ThreeMaze.pDef ThreeMaze.Hallway.sInactive
    ThreeMaze.Hallway.dPush 0 true ThreeMaze.Standalone.sInactive
    (some ThreeMaze.Standalone.frameA) ThreeMaze.HW02.sInactive rfl rfl rfl

/-- Claim C5 (amended): while a session is active, every register
request carrying an experiment id or a filename is rejected with an
error naming the active experiment and the server state — including
the active experiment instance, kept fully abstract — is unchanged;
a request carrying neither field is rejected by the earlier
missing-field check (whose error does not name the active session),
again leaving the state unchanged. -/
theorem c5_theorem (α : Type) (st : ThreeMaze.Server.ServerState α)
    (req : ThreeMaze.Server.RegisterRequest)
    (proceed : ThreeMaze.Server.ServerState α → ThreeMaze.Server.RegisterRequest →
      ThreeMaze.Server.Response × ThreeMaze.Server.ServerState α)
    (eid : String) (x : α)
    (hst : st.activeExperiment = some (eid, x)) :
    (¬ (req.experimentId = none ∧ req.filename = none) →
      ThreeMaze.Server.handleExperimentRegister st req proceed =
        (.experimentError "Another experiment is already active" (some eid), st)) ∧
    (req.experimentId = none ∧ req.filename = none →
      ThreeMaze.Server.handleExperimentRegister st req proceed =
        (.experimentError "No experiment ID or filename provided" none, st)) := by
  constructor
  · intro hne
    simp [ThreeMaze.Server.handleExperimentRegister, hne, hst]
  · intro hemp
    simp [ThreeMaze.Server.handleExperimentRegister, hemp]

/-- Claim C5 counterexample: a register request with neither an
experiment id nor a filename, arriving while `hallway_experiment` is
active, is answered with the missing-field error, which does not name
the currently active experiment (the state is still unchanged). -/
theorem c5_counterexample :
    ThreeMaze.Server.handleExperimentRegister ThreeMaze.Server.stActive
      ThreeMaze.Server.reqEmptyFields ThreeMaze.Server.proceedStub =
      (.experimentError "No experiment ID or filename provided" none,
        ThreeMaze.Server.stActive) ∧
    ThreeMaze.Server.stActive.activeExperiment = some ("hallway_experiment", ()) ∧
    ThreeMaze.Server.namedActiveExperiment
      (ThreeMaze.Server.handleExperimentRegister ThreeMaze.Server.stActive
        ThreeMaze.Server.reqEmptyFields ThreeMaze.Server.proceedStub).1 = none :=
  ⟨rfl, rfl, rfl⟩

/-- Claim C5 witness: concrete rejections through `c5_theorem`. -/
theorem c5_witness :
    ThreeMaze.Server.handleExperimentRegister ThreeMaze.Server.stActive
      ThreeMaze.Server.reqFile ThreeMaze.Server.proceedStub =
      (.experimentError "Another experiment is already active"
        (some "hallway_experiment"), ThreeMaze.Server.stActive) ∧
    ThreeMaze.Server.handleExperimentRegister ThreeMaze.Server.stActive
      ThreeMaze.Server.reqEmptyFields ThreeMaze.Server.proceedStub =
      (.experimentError "No experiment ID or filename provided" none,
        ThreeMaze.Server.stActive) := by
  have h1 := c5_theorem Unit ThreeMaze.Server.stActive ThreeMaze.Server.reqFile
    ThreeMaze.Server.proceedStub "hallway_experiment" () rfl
  have h2 := c5_theorem Unit ThreeMaze.Server.stActive ThreeMaze.Server.reqEmptyFields
    ThreeMaze.Server.proceedStub "hallway_experiment" () rfl
  exact ⟨h1.1 (by simp [ThreeMaze.Server.reqFile]),
    h2.2 (by simp [ThreeMaze.Server.reqEmptyFields])⟩

/-- Claim C6 (amended): invoking terminate with no active session
never changes the server state on any of the three paths, and the
disconnect-cleanup and startup-failure-cleanup paths are silent
no-ops; the explicit unregister path, however, answers with the
`experiment_error` response `No active Python experiment` rather than
succeeding silently. -/
theorem c6_theorem (α : Type) (st : ThreeMaze.Server.ServerState α)
    (hst : st.activeExperiment = none) :
    (ThreeMaze.Server.handleExperimentUnregister st).2 = st ∧
    (ThreeMaze.Server.handleExperimentUnregister st).1 =
      .experimentError "No active Python experiment" none ∧
    ThreeMaze.Server.disconnectCleanup st = st ∧
    (st.autonomousTask = false → ThreeMaze.Server.registerFailureCleanup st = st) := by
  refine ⟨?_, ?_, ?_, ?_⟩
  · simp [ThreeMaze.Server.handleExperimentUnregister, hst]
  · simp [ThreeMaze.Server.handleExperimentUnregister, hst]
  · simp [ThreeMaze.Server.disconnectCleanup, hst]
  · intro htask
    simp [ThreeMaze.Server.registerFailureCleanup, hst, htask]

/-- Claim C6 counterexample: an `experiment_unregister` request with no
active experiment is answered with an error response (`No active
Python experiment`), so terminate-when-terminated is not error-free on
the explicit-stop path. -/
theorem c6_counterexample :
    ThreeMaze.Server.isErrorResponse
      (ThreeMaze.Server.handleExperimentUnregister ThreeMaze.Server.stEmpty).1 = true ∧
    (ThreeMaze.Server.handleExperimentUnregister ThreeMaze.Server.stEmpty).1 =
      .experimentError "No active Python experiment" none :=
  ⟨rfl, rfl⟩

/-- Claim C6 witness: the terminated-state no-ops through `c6_theorem`. -/
theorem c6_witness :
    (ThreeMaze.Server.handleExperimentUnregister ThreeMaze.Server.stEmpty).2 =
      ThreeMaze.Server.stEmpty ∧
    ThreeMaze.Server.disconnectCleanup ThreeMaze.Server.stEmpty =
      ThreeMaze.Server.stEmpty ∧
    ThreeMaze.Server.registerFailureCleanup ThreeMaze.Server.stEmpty =
      ThreeMaze.Server.stEmpty := by
  have h := c6_theorem Unit ThreeMaze.Server.stEmpty rfl
  exact ⟨h.1, h.2.2.1, h.2.2.2 rfl⟩

/-- Claim C4 (amended): `WaterDelivery.deliver` called within the
cooldown window of the last successful delivery fails fast with reason
`Cooldown active` and the remaining wait time, does not pulse, does not
queue anything, and leaves `last_delivery_time` and `delivery_count`
(the whole state) unchanged; the standalone direct-DAQ path, by
contrast, performs no cooldown check at all: with a DAQ present it
pulses and increments the reward count unconditionally. -/
theorem c4_theorem :
    (∀ (s : ThreeMaze.Water.State) (amount : ℕ) (now : ℚ) (hwOk : Bool),
      s.is_initialized = true → s.is_active = true →
      now - s.last_delivery_time < s.cooldown_ms →
      ThreeMaze.Water.deliver s amount now hwOk =
        (.failure "Cooldown active"
          (some (s.cooldown_ms - (now - s.last_delivery_time))), s, false)) ∧
    (∀ (s : ThreeMaze.Standalone.State), s.daq_task = true →
      ThreeMaze.Standalone.deliver_water s true =
        (true, { s with num_rewards := s.num_rewards + 1 }, true)) := by
  constructor
  · intro s amount now hwOk h1 h2 h3
    simp [ThreeMaze.Water.deliver, h1, h2, h3]
  · intro s h
    simp [ThreeMaze.Standalone.deliver_water, h]

/-- Claim C4 counterexample: on the standalone path two back-to-back
delivery requests (zero elapsed time, hence inside any positive
cooldown such as the managed default of 1000 ms) both succeed, both
pulse the DAQ, and the reward counter advances by 2 — the cooldown is
not observed on this reward-delivery path. -/
theorem c4_counterexample :
    (ThreeMaze.Standalone.deliver_water ThreeMaze.Standalone.sBase true).1 = true ∧
    (ThreeMaze.Standalone.deliver_water
      (ThreeMaze.Standalone.deliver_water ThreeMaze.Standalone.sBase true).2.1
      true).1 = true ∧
    (ThreeMaze.Standalone.deliver_water
      (ThreeMaze.Standalone.deliver_water ThreeMaze.Standalone.sBase true).2.1
      true).2.2 = true ∧
    (ThreeMaze.Standalone.deliver_water
      (ThreeMaze.Standalone.deliver_water ThreeMaze.Standalone.sBase true).2.1
      true).2.1.num_rewards = 2 := by
  decide

/-- Claim C4 witness: a concrete in-cooldown rejection and a concrete
standalone delivery through `c4_theorem`. -/
theorem c4_witness :
    ThreeMaze.Water.deliver ThreeMaze.Water.wsReady 1 500 true =
      (.failure "Cooldown active"
        (some (ThreeMaze.Water.wsReady.cooldown_ms -
          (500 - ThreeMaze.Water.wsReady.last_delivery_time))),
        ThreeMaze.Water.wsReady, false) ∧
    ThreeMaze.Standalone.deliver_water ThreeMaze.Standalone.sBase true =
      (true, { ThreeMaze.Standalone.sBase with
        num_rewards := ThreeMaze.Standalone.sBase.num_rewards + 1 }, true) :=
  ⟨c4_theorem.1 ThreeMaze.Water.wsReady 1 500 true rfl rfl
      (by norm_num [ThreeMaze.Water.wsReady]),
    c4_theorem.2 ThreeMaze.Standalone.sBase rfl⟩

namespace ThreeMaze.HW02

theorem ppu_dip (p : Params) (s : State) (d : PosUpdate) (n0 : ℚ)
    (hasS hw : Bool) (ha : s.is_active = true)
    (hst : s.fall_start_time = none)
    (hy : d.y < p.player_radius * (4 / 10)) (hz : |d.z| < p.trial_end_y) :
    process_position_update p s d n0 hasS hw =
      (.update true d,
        { s with
          px := d.x, py := d.z, pz := d.y, ptheta := d.theta,
          fall_start_time := some n0, is_falling := true,
          fall_count := s.fall_count + 1 }) := by
  have hcf : fall_check p
      { s with px := d.x, py := d.z, pz := d.y, ptheta := d.theta } n0 =
      { s with
        px := d.x, py := d.z, pz := d.y, ptheta := d.theta,
        fall_start_time := some n0, is_falling := true,
        fall_count := s.fall_count + 1 } := by
    unfold fall_check
    rw [if_pos ⟨by simpa using hy, by simpa using hst⟩]
  have hto : ¬ (FALL_RESET_TIME < (n0 - n0) * 1000) := by
    norm_num [FALL_RESET_TIME]
  unfold process_position_update
  rw [if_neg (by simp [ha]), hcf]
  simp [hto, not_le.mpr hz]
  norm_num [FALL_RESET_TIME]

theorem ppu_step_window (p : Params) (s : State) (d : PosUpdate)
    (now n0 : ℚ) (hasS hw : Bool)
    (ha : s.is_active = true) (hf : s.is_falling = true)
    (hst : s.fall_start_time = some n0)
    (hy : d.y < p.player_radius * (5 / 10)) (hz : |d.z| < p.trial_end_y)
    (ht : (now - n0) * 1000 ≤ FALL_RESET_TIME) :
    process_position_update p s d now hasS hw =
      (.update true d,
        { s with px := d.x, py := d.z, pz := d.y, ptheta := d.theta }) := by
  have hcf : fall_check p
      { s with px := d.x, py := d.z, pz := d.y, ptheta := d.theta } now =
      { s with px := d.x, py := d.z, pz := d.y, ptheta := d.theta } := by
    unfold fall_check
    rw [if_neg, if_neg]
    · exact fun hc => absurd hc.1 (not_le.mpr (by simpa using hy))
    · exact fun hc => by simp [hst] at hc
  have hto : ¬ (FALL_RESET_TIME < (now - n0) * 1000) := not_lt.mpr ht
  unfold process_position_update
  rw [if_neg (by simp [ha]), hcf]
  simp [hst, hto, not_le.mpr hz, hf]

theorem ppu_timeout (p : Params) (s : State) (d : PosUpdate)
    (now n0 : ℚ) (hasS hw : Bool)
    (ha : s.is_active = true) (hf : s.is_falling = true)
    (hst : s.fall_start_time = some n0)
    (hy : d.y < p.player_radius * (5 / 10)) (hz : |d.z| < p.trial_end_y)
    (ht : FALL_RESET_TIME < (now - n0) * 1000) :
    process_position_update p s d now hasS hw =
      (.set 0 p.player_radius 0 0,
        reset_player p
          { s with px := d.x, py := d.z, pz := d.y, ptheta := d.theta }) := by
  have hcf : fall_check p
      { s with px := d.x, py := d.z, pz := d.y, ptheta := d.theta } now =
      { s with px := d.x, py := d.z, pz := d.y, ptheta := d.theta } := by
    unfold fall_check
    rw [if_neg, if_neg]
    · exact fun hc => absurd hc.1 (not_le.mpr (by simpa using hy))
    · exact fun hc => by simp [hst] at hc
  unfold process_position_update
  rw [if_neg (by simp [ha]), hcf]
  simp [hst, ht, not_le.mpr hz]

theorem ppu_persist (p : Params) (n0 : ℚ)
    (l : List (PosUpdate × ℚ × Bool × Bool)) :
    ∀ (s : State), s.is_active = true → s.is_falling = true →
    s.fall_start_time = some n0 →
    (∀ e ∈ l, e.1.y < p.player_radius * (5 / 10) ∧ |e.1.z| < p.trial_end_y ∧
      (e.2.1 - n0) * 1000 ≤ FALL_RESET_TIME) →
    (ppuRun p s l).is_active = true ∧ (ppuRun p s l).is_falling = true ∧
      (ppuRun p s l).fall_start_time = some n0 := by
  induction l with
  | nil => exact fun s ha hf hst _ => ⟨ha, hf, hst⟩
  | cons e l ih =>
    intro s ha hf hst hmem
    obtain ⟨hy, hz, ht⟩ := hmem e (List.mem_cons_self e l)
    have hstep := ppu_step_window p s e.1 e.2.1 n0 e.2.2.1 e.2.2.2
      ha hf hst hy hz ht
    have hrun : ppuRun p s (e :: l) =
        ppuRun p (process_position_update p s e.1 e.2.1 e.2.2.1 e.2.2.2).2 l :=
      rfl
    rw [hrun, hstep]
    exact ih _ (by simpa using ha) (by simpa using hf) (by simpa using hst)
      (fun q hq => hmem q (List.mem_cons_of_mem _ hq))

end ThreeMaze.HW02

/-- Claim C2 (amended): in the event-driven variant
(`hallway02_experiment.py`, `process_position_update`), the recovery
threshold `PLAYER_RADIUS * 0.5` is strictly higher than the fall
threshold `PLAYER_RADIUS * 0.4` (a nonzero hysteresis band); a position
update whose height dips below the fall threshold (inside the trial
boundary) starts a fall stamped with the update's time; while the
reported heights stay below the recovery threshold, the positions stay
inside the trial boundary, and each update arrives within
`FALL_RESET_TIME` (5000 ms, strict `>` in the code) of the dip, every
subsequent update leaves the experiment falling with the dip time
retained; and the first update past that window clears the fall — not
through the recovery threshold but through the fall-timeout
`_reset_player` that the same call performs.  (In the managed variant,
`hallway_experiment.py` `_check_fall_condition`, fall and recovery
share the single threshold `PLAYER_RADIUS` — see `c2_counterexample`.) -/
theorem c2_theorem (p : ThreeMaze.Params) (hp : 0 < p.player_radius) :
    p.player_radius * (4 / 10) < p.player_radius * (5 / 10) ∧
    (∀ (s : ThreeMaze.HW02.State) (d : ThreeMaze.HW02.PosUpdate) (n0 : ℚ)
        (hasS hw : Bool),
      s.is_active = true → s.fall_start_time = none →
      d.y < p.player_radius * (4 / 10) → |d.z| < p.trial_end_y →
      (ThreeMaze.HW02.process_position_update p s d n0 hasS
        hw).2.is_falling = true ∧
      (ThreeMaze.HW02.process_position_update p s d n0 hasS
        hw).2.fall_start_time = some n0) ∧
    (∀ (s : ThreeMaze.HW02.State) (n0 : ℚ)
        (l : List (ThreeMaze.HW02.PosUpdate × ℚ × Bool × Bool)),
      s.is_active = true → s.is_falling = true →
      s.fall_start_time = some n0 →
      (∀ e ∈ l, e.1.y < p.player_radius * (5 / 10) ∧
        |e.1.z| < p.trial_end_y ∧
        (e.2.1 - n0) * 1000 ≤ ThreeMaze.FALL_RESET_TIME) →
      (ThreeMaze.HW02.ppuRun p s l).is_falling = true ∧
      (ThreeMaze.HW02.ppuRun p s l).fall_start_time = some n0) ∧
    (∀ (s : ThreeMaze.HW02.State) (d : ThreeMaze.HW02.PosUpdate)
        (now n0 : ℚ) (hasS hw : Bool),
      s.is_active = true → s.is_falling = true →
      s.fall_start_time = some n0 →
      d.y < p.player_radius * (5 / 10) → |d.z| < p.trial_end_y →
      ThreeMaze.FALL_RESET_TIME < (now - n0) * 1000 →
      (ThreeMaze.HW02.process_position_update p s d now hasS
        hw).2.is_falling = false ∧
      (ThreeMaze.HW02.process_position_update p s d now hasS
        hw).2.fall_start_time = none) := by
  refine ⟨(mul_lt_mul_left hp).mpr (by norm_num), ?_, ?_, ?_⟩
  · intro s d n0 hasS hw ha hst hy hz
    rw [ThreeMaze.HW02.ppu_dip p s d n0 hasS hw ha hst hy hz]
    exact ⟨rfl, rfl⟩
  · exact fun s n0 l ha hf hst hmem =>
      (ThreeMaze.HW02.ppu_persist p n0 l s ha hf hst hmem).2
  · intro s d now n0 hasS hw ha hf hst hy hz ht
    rw [ThreeMaze.HW02.ppu_timeout p s d now n0 hasS hw ha hf hst hy hz ht]
    exact ⟨rfl, rfl⟩

/-- Claim C2 counterexample: in the managed variant there is no
recovery threshold strictly above the fall threshold.  `sDipped` is the
state reached from the fresh state by one fall check at height `0.3`
(first conjunct); heights strictly below `PLAYER_RADIUS = 1/2` trigger
a fall, yet for any would-be recovery threshold `r > 1/2` there is a
height in `[1/2, r)` — i.e. at or above the fall threshold but below
`r` — whose evaluation already clears the falling state, so no
nonzero hysteresis band exists. -/
theorem c2_counterexample :
    ThreeMaze.Hallway.sDipped =
      ThreeMaze.Hallway.check_fall_condition ThreeMaze.pDef
        { ThreeMaze.Hallway.initState ThreeMaze.pDef with pz := 3 / 10 } 0 ∧
    ¬ ∃ r : ℚ, (1 : ℚ) / 2 < r ∧ ∀ h : ℚ, 1 / 2 ≤ h → h < r →
      (ThreeMaze.Hallway.check_fall_condition ThreeMaze.pDef
        { ThreeMaze.Hallway.sDipped with pz := h } 1).is_falling = true := by
  constructor
  · norm_num [ThreeMaze.Hallway.sDipped, ThreeMaze.Hallway.check_fall_condition,
      ThreeMaze.Hallway.initState, ThreeMaze.pDef, ThreeMaze.FALL_RESET_TIME]
  · rintro ⟨r, hr, hall⟩
    have hmid := hall ((1 / 2 + r) / 2) (by linarith) (by linarith)
    have heval : (ThreeMaze.Hallway.check_fall_condition ThreeMaze.pDef
        { ThreeMaze.Hallway.sDipped with pz := (1 / 2 + r) / 2 } 1).is_falling =
        false := by
      unfold ThreeMaze.Hallway.check_fall_condition
      rw [if_neg, if_pos]
      · norm_num [ThreeMaze.pDef]
        linarith
      · exact fun hc => absurd hc.1 (by norm_num [ThreeMaze.pDef]; linarith)
    rw [hmid] at heval
    simp at heval

/-- Claim C2 witness: a concrete run through `c2_theorem`: a dip to
height `0.1` at time 0 starts the fall; updates at heights `0.21` and
`0.24` (inside the band `[0.2, 0.25)`) at times 1 s and 2 s — within
the 5000 ms window — stay falling with the dip time retained; an update
at time 6 s (6000 ms since the dip, past the window) is reset out of
the falling state even at height `0.21`. -/
theorem c2_witness :
    ThreeMaze.pDef.player_radius * (4 / 10) <
      ThreeMaze.pDef.player_radius * (5 / 10) ∧
    (ThreeMaze.HW02.process_position_update ThreeMaze.pDef
      ThreeMaze.HW02.sGrounded ⟨0, 1 / 10, 0, 0⟩ 0 true
      true).2.is_falling = true ∧
    (ThreeMaze.HW02.ppuRun ThreeMaze.pDef ThreeMaze.HW02.sFalling
      [(⟨0, 21 / 100, 0, 0⟩, 1, true, true),
        (⟨0, 24 / 100, 0, 0⟩, 2, true, true)]).is_falling = true ∧
    (ThreeMaze.HW02.ppuRun ThreeMaze.pDef ThreeMaze.HW02.sFalling
      [(⟨0, 21 / 100, 0, 0⟩, 1, true, true),
        (⟨0, 24 / 100, 0, 0⟩, 2, true, true)]).fall_start_time = some 0 ∧
    (ThreeMaze.HW02.process_position_update ThreeMaze.pDef
      ThreeMaze.HW02.sFalling ⟨0, 21 / 100, 0, 0⟩ 6 true
      true).2.is_falling = false := by
  have h := c2_theorem ThreeMaze.pDef (by norm_num [ThreeMaze.pDef])
  have hdip := h.2.1 ThreeMaze.HW02.sGrounded ⟨0, 1 / 10, 0, 0⟩ 0 true true
    rfl rfl (by norm_num [ThreeMaze.pDef]) (by norm_num [ThreeMaze.pDef])
  have hrun := h.2.2.1 ThreeMaze.HW02.sFalling 0
    [(⟨0, 21 / 100, 0, 0⟩, 1, true, true),
      (⟨0, 24 / 100, 0, 0⟩, 2, true, true)] rfl rfl rfl
    (by
      intro e he
      fin_cases he <;>
        norm_num [ThreeMaze.pDef, ThreeMaze.FALL_RESET_TIME])
  have hto := h.2.2.2 ThreeMaze.HW02.sFalling ⟨0, 21 / 100, 0, 0⟩ 6 0 true true
    rfl rfl rfl (by norm_num [ThreeMaze.pDef]) (by norm_num [ThreeMaze.pDef])
    (by norm_num [ThreeMaze.FALL_RESET_TIME])
  exact ⟨h.1, hdip.1, hrun.1, hrun.2, hto.1⟩

/-- Claim C7 (amended): the managed and standalone integrators rotate
the clipped local velocity into the world frame with the heading as it
was before this tick's rotation increment, and update the heading only
afterwards (`heading += raw_theta * ROTATION_SENSITIVITY`, then
normalize); the event-driven variant (`hallway02_experiment.py`,
`_serial_read_loop`) instead adds the rotation increment to
`realtime_theta` *before* computing the world-frame velocity, so its
velocity uses the post-increment heading. -/
theorem c7_theorem :
    (∀ (T : ThreeMaze.TrigModel) (p : ThreeMaze.Params)
        (s : ThreeMaze.Hallway.State) (d : ThreeMaze.SerialData),
      (ThreeMaze.Hallway.update_position_from_serial T p s d).px =
        s.px + (ThreeMaze.linVel p.max_linear_velocity d.x * T.cosF s.ptheta -
          ThreeMaze.linVel p.max_linear_velocity d.y * T.sinF s.ptheta) *
          ThreeMaze.DT ∧
      (ThreeMaze.Hallway.update_position_from_serial T p s d).py =
        s.py + (-ThreeMaze.linVel p.max_linear_velocity d.x * T.sinF s.ptheta -
          ThreeMaze.linVel p.max_linear_velocity d.y * T.cosF s.ptheta) *
          ThreeMaze.DT ∧
      (ThreeMaze.Hallway.update_position_from_serial T p s d).ptheta =
        ThreeMaze.normalize_angle
          (s.ptheta + d.theta * ThreeMaze.ROTATION_SENSITIVITY)) ∧
    (∀ (T : ThreeMaze.TrigModel) (p : ThreeMaze.Params)
        (s : ThreeMaze.Standalone.State) (d : ThreeMaze.SerialData),
      (ThreeMaze.Standalone.update_position_from_serial T p s d).px =
        s.px + (ThreeMaze.linVel p.max_linear_velocity d.x * T.cosF s.ptheta -
          ThreeMaze.linVel p.max_linear_velocity d.y * T.sinF s.ptheta) *
          ThreeMaze.DT ∧
      (ThreeMaze.Standalone.update_position_from_serial T p s d).py =
        s.py + (-ThreeMaze.linVel p.max_linear_velocity d.x * T.sinF s.ptheta -
          ThreeMaze.linVel p.max_linear_velocity d.y * T.cosF s.ptheta) *
          ThreeMaze.DT ∧
      (ThreeMaze.Standalone.update_position_from_serial T p s d).ptheta =
        ThreeMaze.normalize_angle
          (s.ptheta + d.theta * ThreeMaze.ROTATION_SENSITIVITY)) ∧
    (∀ (T : ThreeMaze.TrigModel) (p : ThreeMaze.Params)
        (s : ThreeMaze.HW02.State) (d : ThreeMaze.SerialData),
      s.is_falling = false →
      (ThreeMaze.HW02.serialTick T p s d).1.realtime_theta =
        s.realtime_theta + d.theta * (5 / 100) ∧
      (ThreeMaze.HW02.serialTick T p s d).2.vx =
        -ThreeMaze.npClip (d.x * ThreeMaze.HW02.ENCODER_TO_CM / ThreeMaze.DT)
            (-p.max_linear_velocity) p.max_linear_velocity *
          T.cosF (s.realtime_theta + d.theta * (5 / 100)) -
        ThreeMaze.npClip (d.y * ThreeMaze.HW02.ENCODER_TO_CM / ThreeMaze.DT)
            (-p.max_linear_velocity) p.max_linear_velocity *
          T.sinF (s.realtime_theta + d.theta * (5 / 100)) ∧
      (ThreeMaze.HW02.serialTick T p s d).2.vz =
        ThreeMaze.npClip (d.x * ThreeMaze.HW02.ENCODER_TO_CM / ThreeMaze.DT)
            (-p.max_linear_velocity) p.max_linear_velocity *
          T.sinF (s.realtime_theta + d.theta * (5 / 100)) -
        ThreeMaze.npClip (d.y * ThreeMaze.HW02.ENCODER_TO_CM / ThreeMaze.DT)
            (-p.max_linear_velocity) p.max_linear_velocity *
          T.cosF (s.realtime_theta + d.theta * (5 / 100))) := by
  refine ⟨fun T p s d => ⟨rfl, rfl, rfl⟩, fun T p s d => ⟨rfl, rfl, rfl⟩, ?_⟩
  intro T p s d h
  refine ⟨rfl, ?_, ?_⟩ <;>
    simp [ThreeMaze.HW02.serialTick,
      ThreeMaze.HW02.calculate_standardized_motion_realtime, h]

/-- Claim C7 counterexample: a concrete event-driven tick whose output
velocity differs from the value the pre-increment heading would give.
With the identity trig model, heading 0 and input
`(x, y, theta) = (1, 0, 1)`: the tick outputs
`vx = -0.698 * cosF(0.05) = -0.0349`, while rotating with the heading
before the increment would give `-0.698 * cosF(0) = 0`. -/
theorem c7_counterexample :
    (ThreeMaze.HW02.serialTick ThreeMaze.trigId ThreeMaze.pDef
      ThreeMaze.HW02.sGrounded ⟨1, 0, 1⟩).2.vx = -349 / 10000 ∧
    -ThreeMaze.npClip ((1 : ℚ) * ThreeMaze.HW02.ENCODER_TO_CM / ThreeMaze.DT)
        (-ThreeMaze.pDef.max_linear_velocity) ThreeMaze.pDef.max_linear_velocity *
      ThreeMaze.trigId.cosF ThreeMaze.HW02.sGrounded.realtime_theta -
      ThreeMaze.npClip ((0 : ℚ) * ThreeMaze.HW02.ENCODER_TO_CM / ThreeMaze.DT)
        (-ThreeMaze.pDef.max_linear_velocity) ThreeMaze.pDef.max_linear_velocity *
      ThreeMaze.trigId.sinF ThreeMaze.HW02.sGrounded.realtime_theta = 0 ∧
    (ThreeMaze.HW02.serialTick ThreeMaze.trigId ThreeMaze.pDef
      ThreeMaze.HW02.sGrounded ⟨1, 0, 1⟩).2.vx ≠
      -ThreeMaze.npClip ((1 : ℚ) * ThreeMaze.HW02.ENCODER_TO_CM / ThreeMaze.DT)
          (-ThreeMaze.pDef.max_linear_velocity) ThreeMaze.pDef.max_linear_velocity *
        ThreeMaze.trigId.cosF ThreeMaze.HW02.sGrounded.realtime_theta -
        ThreeMaze.npClip ((0 : ℚ) * ThreeMaze.HW02.ENCODER_TO_CM / ThreeMaze.DT)
          (-ThreeMaze.pDef.max_linear_velocity) ThreeMaze.pDef.max_linear_velocity *
        ThreeMaze.trigId.sinF ThreeMaze.HW02.sGrounded.realtime_theta := by
  refine ⟨?_, ?_, ?_⟩ <;>
    norm_num [ThreeMaze.HW02.serialTick,
      ThreeMaze.HW02.calculate_standardized_motion_realtime,
      ThreeMaze.HW02.sGrounded, ThreeMaze.HW02.ENCODER_TO_CM, ThreeMaze.npClip,
      ThreeMaze.trigId, ThreeMaze.pDef, ThreeMaze.DT]

/-- Claim C7 witness: the event-driven conjunct of `c7_theorem` at a
concrete non-falling state and input. -/
theorem c7_witness :
    (ThreeMaze.HW02.serialTick ThreeMaze.trigStraight ThreeMaze.pDef
      ThreeMaze.HW02.sGrounded ⟨2, 3, 4⟩).1.realtime_theta =
      ThreeMaze.HW02.sGrounded.realtime_theta + 4 * (5 / 100) ∧
    (ThreeMaze.HW02.serialTick ThreeMaze.trigStraight ThreeMaze.pDef
      ThreeMaze.HW02.sGrounded ⟨2, 3, 4⟩).2.vx =
      -ThreeMaze.npClip ((2 : ℚ) * ThreeMaze.HW02.ENCODER_TO_CM / ThreeMaze.DT)
          (-ThreeMaze.pDef.max_linear_velocity) ThreeMaze.pDef.max_linear_velocity *
        ThreeMaze.trigStraight.cosF
          (ThreeMaze.HW02.sGrounded.realtime_theta + 4 * (5 / 100)) -
        ThreeMaze.npClip ((3 : ℚ) * ThreeMaze.HW02.ENCODER_TO_CM / ThreeMaze.DT)
          (-ThreeMaze.pDef.max_linear_velocity) ThreeMaze.pDef.max_linear_velocity *
        ThreeMaze.trigStraight.sinF
          (ThreeMaze.HW02.sGrounded.realtime_theta + 4 * (5 / 100)) ∧
    (ThreeMaze.HW02.serialTick ThreeMaze.trigStraight ThreeMaze.pDef
      ThreeMaze.HW02.sGrounded ⟨2, 3, 4⟩).2.vz =
      ThreeMaze.npClip ((2 : ℚ) * ThreeMaze.HW02.ENCODER_TO_CM / ThreeMaze.DT)
          (-ThreeMaze.pDef.max_linear_velocity) ThreeMaze.pDef.max_linear_velocity *
        ThreeMaze.trigStraight.sinF
          (ThreeMaze.HW02.sGrounded.realtime_theta + 4 * (5 / 100)) -
        ThreeMaze.npClip ((3 : ℚ) * ThreeMaze.HW02.ENCODER_TO_CM / ThreeMaze.DT)
          (-ThreeMaze.pDef.max_linear_velocity) ThreeMaze.pDef.max_linear_velocity *
        ThreeMaze.trigStraight.cosF
          (ThreeMaze.HW02.sGrounded.realtime_theta + 4 * (5 / 100)) :=
  c7_theorem.2.2 ThreeMaze.trigStraight ThreeMaze.pDef ThreeMaze.HW02.sGrounded
    ⟨2, 3, 4⟩ rfl

namespace ThreeMaze.Standalone

/-- The logging-related fields (and `is_active`) that the standalone
motion pipeline never touches. -/
def logFields (s : State) : Option ℤ × ℕ × ℕ × Bool :=
  (s.last_logged_serial_timestamp, s.duplicate_count, s.log_count, s.is_active)

theorem hte_logFields (p : Params) (s : State) (w : Bool) :
    logFields (handle_trial_end p s w) = logFields s := by
  unfold handle_trial_end deliver_water reset_player logFields
  by_cases h : s.is_trial_end = true
  · simp [h]
  · by_cases hd : s.daq_task = false <;> by_cases hw : w = true <;>
      simp [h, hd, hw]

theorem cf_logFields (p : Params) (s : State) (now : ℚ) :
    logFields (check_fall_condition p s now) = logFields s := by
  unfold check_fall_condition reset_player logFields
  dsimp only
  by_cases h1 : s.pz < p.player_radius - 1 / 5 ∧ s.fall_start_time = none
  · rw [if_pos h1]
    repeat' split
    all_goals rfl
  · rw [if_neg h1]
    by_cases h2 : p.player_radius - 1 / 5 ≤ s.pz
    · rw [if_pos h2]
    · rw [if_neg h2]
      rcases hfs : s.fall_start_time with _ | t
      · rfl
      · simp only [hfs]
        repeat' split
        all_goals rfl

theorem upd_logFields (T : TrigModel) (p : Params) (s : State) (d : SerialData) :
    logFields (update_position_from_serial T p s d) = logFields s := rfl

theorem motion_step_logFields (T : TrigModel) (p : Params) (s : State) (f : Frame)
    (now : ℚ) (hwOk : Bool) :
    logFields (motion_step T p s f now hwOk) = logFields s := by
  unfold motion_step
  dsimp only
  by_cases hb : p.trial_end_y ≤
      |(check_fall_condition p
        (if s.is_falling = true then s else update_position_from_serial T p s f.data)
        now).py|
  · rw [if_pos hb, hte_logFields, cf_logFields]
    by_cases hf : s.is_falling = true
    · rw [if_pos hf]
    · rw [if_neg hf, upd_logFields]
  · rw [if_neg hb, cf_logFields]
    by_cases hf : s.is_falling = true
    · rw [if_pos hf]
    · rw [if_neg hf, upd_logFields]

theorem upd_comm (T : TrigModel) (p : Params) (s : State) (d : SerialData)
    (l : Option ℤ) :
    update_position_from_serial T p { s with last_logged_serial_timestamp := l } d =
      { update_position_from_serial T p s d with
        last_logged_serial_timestamp := l } := rfl

theorem cf_comm (p : Params) (s : State) (now : ℚ) (l : Option ℤ) :
    check_fall_condition p { s with last_logged_serial_timestamp := l } now =
      { check_fall_condition p s now with last_logged_serial_timestamp := l } := by
  unfold check_fall_condition reset_player
  dsimp only
  by_cases h1 : s.pz < p.player_radius - 1 / 5 ∧ s.fall_start_time = none
  · rw [if_pos h1, if_pos h1]
    dsimp only
    by_cases ht : FALL_RESET_TIME < (now - now) * 1000
    · rw [if_pos ht, if_pos ht]
    · rw [if_neg ht, if_neg ht]
  · rw [if_neg h1, if_neg h1]
    by_cases h2 : p.player_radius - 1 / 5 ≤ s.pz
    · rw [if_pos h2, if_pos h2]
    · rw [if_neg h2, if_neg h2]
      rcases hfs : s.fall_start_time with _ | t
      · simp only [hfs]
      · simp only [hfs]
        by_cases ht : FALL_RESET_TIME < (now - t) * 1000
        · rw [if_pos ht, if_pos ht]
        · rw [if_neg ht, if_neg ht, hfs]

theorem hte_comm (p : Params) (s : State) (w : Bool) (l : Option ℤ) :
    handle_trial_end p { s with last_logged_serial_timestamp := l } w =
      { handle_trial_end p s w with last_logged_serial_timestamp := l } := by
  unfold handle_trial_end deliver_water reset_player
  dsimp only
  by_cases h : s.is_trial_end = true
  · rw [if_pos h, if_pos h]
  · rw [if_neg h, if_neg h]
    dsimp only
    by_cases hd : s.daq_task = false
    · rw [if_pos hd, if_pos hd]
    · rw [if_neg hd, if_neg hd]
      by_cases hw : w = true
      · rw [if_pos hw, if_pos hw]
      · rw [if_neg hw, if_neg hw]

theorem motion_step_comm (T : TrigModel) (p : Params) (s : State) (f : Frame)
    (now : ℚ) (hwOk : Bool) (l : Option ℤ) :
    motion_step T p { s with last_logged_serial_timestamp := l } f now hwOk =
      { motion_step T p s f now hwOk with last_logged_serial_timestamp := l } := by
  unfold motion_step
  dsimp only
  by_cases hf : s.is_falling = true
  · rw [if_pos hf, if_pos hf, cf_comm]
    dsimp only
    by_cases hb : p.trial_end_y ≤ |(check_fall_condition p s now).py|
    · rw [if_pos hb, if_pos hb, hte_comm]
    · rw [if_neg hb, if_neg hb]
  · rw [if_neg hf, if_neg hf, upd_comm, cf_comm]
    dsimp only
    by_cases hb : p.trial_end_y ≤
        |(check_fall_condition p (update_position_from_serial T p s f.data) now).py|
    · rw [if_pos hb, if_pos hb, hte_comm]
    · rw [if_neg hb, if_neg hb]

end ThreeMaze.Standalone

namespace ThreeMaze.Standalone

theorem logFields_last {a b : State} (h : logFields a = logFields b) :
    a.last_logged_serial_timestamp = b.last_logged_serial_timestamp :=
  congrArg Prod.fst h

theorem logFields_dup {a b : State} (h : logFields a = logFields b) :
    a.duplicate_count = b.duplicate_count :=
  congrArg (fun q => q.2.1) h

theorem logFields_log {a b : State} (h : logFields a = logFields b) :
    a.log_count = b.log_count :=
  congrArg (fun q => q.2.2.1) h

theorem logFields_active {a b : State} (h : logFields a = logFields b) :
    a.is_active = b.is_active :=
  congrArg (fun q => q.2.2.2) h

theorem tick_dup (T : TrigModel) (p : Params) (s : State) (f : Frame)
    (now : ℚ) (w : Bool) (ha : s.is_active = true)
    (hl : s.last_logged_serial_timestamp = some f.timestamp) :
    (process_serial_data T p s (some f) now w).2 =
      { motion_step T p s f now w with
        duplicate_count := (motion_step T p s f now w).duplicate_count + 1 } := by
  have hlast : (motion_step T p s f now w).last_logged_serial_timestamp =
      some f.timestamp :=
    (logFields_last (motion_step_logFields T p s f now w)).trans hl
  unfold process_serial_data
  rw [if_pos ha]
  dsimp only
  rw [if_neg (not_not_intro hlast)]

theorem dupmark_log (x : State) :
    ({ x with duplicate_count := x.duplicate_count + 1 } : State).log_count =
      x.log_count := rfl

theorem dupmark_dup (x : State) :
    ({ x with duplicate_count := x.duplicate_count + 1 } : State).duplicate_count =
      x.duplicate_count + 1 := rfl

theorem lastmark_log (x : State) (l : Option ℤ) :
    ({ x with last_logged_serial_timestamp := l } : State).log_count =
      x.log_count := rfl

theorem logmark_log (x : State) (ts : Option ℤ) :
    ({ x with
      log_count := x.log_count + 1, last_logged_serial_timestamp := ts,
      duplicate_count := 0 } : State).log_count = x.log_count + 1 := rfl

theorem tick_fresh (T : TrigModel) (p : Params) (s : State) (f : Frame)
    (now : ℚ) (w : Bool) (ha : s.is_active = true)
    (hl : s.last_logged_serial_timestamp ≠ some f.timestamp) :
    (process_serial_data T p s (some f) now w).2 =
      { motion_step T p s f now w with
        log_count := (motion_step T p s f now w).log_count + 1,
        last_logged_serial_timestamp := some f.timestamp,
        duplicate_count := 0 } := by
  have hlast : (motion_step T p s f now w).last_logged_serial_timestamp ≠
      some f.timestamp := by
    rw [logFields_last (motion_step_logFields T p s f now w)]
    exact hl
  unfold process_serial_data
  rw [if_pos ha]
  dsimp only
  rw [if_pos hlast]

end ThreeMaze.Standalone

/-- Claim C9: duplicate-frame suppression in the standalone
experiment.  Two consecutive polls that see the same frame produce at
most one new log record (first conjunct, with no assumptions); an
active poll whose frame timestamp equals `last_logged_serial_timestamp`
writes no record and increments the duplicate counter instead, while
the motion pipeline still runs: its result agrees with the same poll on
a fresh timestamp in every position and trial field, the two differing
only in the logging bookkeeping (the fresh poll logs one record). -/
theorem c9_theorem (T : ThreeMaze.TrigModel) (p : ThreeMaze.Params)
    (s : ThreeMaze.Standalone.State) (f : ThreeMaze.Standalone.Frame)
    (now1 now2 : ℚ) (w1 w2 : Bool) :
    (ThreeMaze.Standalone.process_serial_data T p
      (ThreeMaze.Standalone.process_serial_data T p s (some f) now1 w1).2
      (some f) now2 w2).2.log_count ≤ s.log_count + 1 ∧
    (s.is_active = true → s.last_logged_serial_timestamp = some f.timestamp →
      (ThreeMaze.Standalone.process_serial_data T p s (some f) now1 w1).2.log_count =
        s.log_count ∧
      (ThreeMaze.Standalone.process_serial_data T p s
        (some f) now1 w1).2.duplicate_count = s.duplicate_count + 1 ∧
      (ThreeMaze.Standalone.process_serial_data T p (ThreeMaze.Standalone.freshen s)
        (some f) now1 w1).2.log_count = s.log_count + 1 ∧
      (ThreeMaze.Standalone.process_serial_data T p s (some f) now1 w1).2.px =
        (ThreeMaze.Standalone.process_serial_data T p (ThreeMaze.Standalone.freshen s)
          (some f) now1 w1).2.px ∧
      (ThreeMaze.Standalone.process_serial_data T p s (some f) now1 w1).2.py =
        (ThreeMaze.Standalone.process_serial_data T p (ThreeMaze.Standalone.freshen s)
          (some f) now1 w1).2.py ∧
      (ThreeMaze.Standalone.process_serial_data T p s (some f) now1 w1).2.pz =
        (ThreeMaze.Standalone.process_serial_data T p (ThreeMaze.Standalone.freshen s)
          (some f) now1 w1).2.pz ∧
      (ThreeMaze.Standalone.process_serial_data T p s (some f) now1 w1).2.ptheta =
        (ThreeMaze.Standalone.process_serial_data T p (ThreeMaze.Standalone.freshen s)
          (some f) now1 w1).2.ptheta ∧
      (ThreeMaze.Standalone.process_serial_data T p s
        (some f) now1 w1).2.trial_number =
        (ThreeMaze.Standalone.process_serial_data T p (ThreeMaze.Standalone.freshen s)
          (some f) now1 w1).2.trial_number ∧
      (ThreeMaze.Standalone.process_serial_data T p s
        (some f) now1 w1).2.num_rewards =
        (ThreeMaze.Standalone.process_serial_data T p (ThreeMaze.Standalone.freshen s)
          (some f) now1 w1).2.num_rewards) := by
  constructor
  · by_cases ha : s.is_active = true
    · have hM := ThreeMaze.Standalone.motion_step_logFields T p s f now1 w1
      by_cases hl : s.last_logged_serial_timestamp = some f.timestamp
      · have ha1 : ({ ThreeMaze.Standalone.motion_step T p s f now1 w1 with
            duplicate_count :=
              (ThreeMaze.Standalone.motion_step T p s f now1 w1).duplicate_count +
                1 } : ThreeMaze.Standalone.State).is_active = true :=
          (ThreeMaze.Standalone.logFields_active hM).trans ha
        have hl1 : ({ ThreeMaze.Standalone.motion_step T p s f now1 w1 with
            duplicate_count :=
              (ThreeMaze.Standalone.motion_step T p s f now1 w1).duplicate_count +
                1 } : ThreeMaze.Standalone.State).last_logged_serial_timestamp =
            some f.timestamp :=
          (ThreeMaze.Standalone.logFields_last hM).trans hl
        rw [ThreeMaze.Standalone.tick_dup T p s f now1 w1 ha hl,
          ThreeMaze.Standalone.tick_dup T p _ f now2 w2 ha1 hl1,
          ThreeMaze.Standalone.dupmark_log,
          ThreeMaze.Standalone.logFields_log
            (ThreeMaze.Standalone.motion_step_logFields T p _ f now2 w2),
          ThreeMaze.Standalone.dupmark_log,
          ThreeMaze.Standalone.logFields_log hM]
        exact Nat.le_succ _
      · have ha1 : ({ ThreeMaze.Standalone.motion_step T p s f now1 w1 with
            log_count :=
              (ThreeMaze.Standalone.motion_step T p s f now1 w1).log_count + 1,
            last_logged_serial_timestamp := some f.timestamp,
            duplicate_count := 0 } : ThreeMaze.Standalone.State).is_active = true :=
          (ThreeMaze.Standalone.logFields_active hM).trans ha
        have hl1 : ({ ThreeMaze.Standalone.motion_step T p s f now1 w1 with
            log_count :=
              (ThreeMaze.Standalone.motion_step T p s f now1 w1).log_count + 1,
            last_logged_serial_timestamp := some f.timestamp,
            duplicate_count := 0 } :
              ThreeMaze.Standalone.State).last_logged_serial_timestamp =
            some f.timestamp := rfl
        rw [ThreeMaze.Standalone.tick_fresh T p s f now1 w1 ha hl,
          ThreeMaze.Standalone.tick_dup T p _ f now2 w2 ha1 hl1,
          ThreeMaze.Standalone.dupmark_log,
          ThreeMaze.Standalone.logFields_log
            (ThreeMaze.Standalone.motion_step_logFields T p _ f now2 w2),
          ThreeMaze.Standalone.logmark_log,
          ThreeMaze.Standalone.logFields_log hM]
    · have ha' : s.is_active = false := by
        rwa [Bool.not_eq_true] at ha
      simp [ThreeMaze.Standalone.process_serial_data, ha']
  · intro ha hl
    have hM := ThreeMaze.Standalone.motion_step_logFields T p s f now1 w1
    have hd := ThreeMaze.Standalone.tick_dup T p s f now1 w1 ha hl
    have hfa : (ThreeMaze.Standalone.freshen s).is_active = true := ha
    have hfl : (ThreeMaze.Standalone.freshen s).last_logged_serial_timestamp ≠
        some f.timestamp := by
      simp [ThreeMaze.Standalone.freshen]
    have hf := ThreeMaze.Standalone.tick_fresh T p
      (ThreeMaze.Standalone.freshen s) f now1 w1 hfa hfl
    have hcm : ThreeMaze.Standalone.motion_step T p
        (ThreeMaze.Standalone.freshen s) f now1 w1 =
        { ThreeMaze.Standalone.motion_step T p s f now1 w1 with
          last_logged_serial_timestamp := none } :=
      ThreeMaze.Standalone.motion_step_comm T p s f now1 w1 none
    rw [hd, hf, hcm]
    exact ⟨(ThreeMaze.Standalone.dupmark_log _).trans
        (ThreeMaze.Standalone.logFields_log hM),
      (ThreeMaze.Standalone.dupmark_dup _).trans
        (congrArg (fun n => n + 1) (ThreeMaze.Standalone.logFields_dup hM)),
      (ThreeMaze.Standalone.logmark_log _ _).trans
        (congrArg (fun n => n + 1) ((ThreeMaze.Standalone.lastmark_log _ _).trans
          (ThreeMaze.Standalone.logFields_log hM))),
      rfl, rfl, rfl, rfl, rfl, rfl⟩

/-- Claim C9 witness: a duplicate poll at timestamp 1000 through
`c9_theorem`: no new record, duplicate counter bumped, and the run with
a fresh timestamp logs exactly one record. -/
theorem c9_witness :
    (ThreeMaze.Standalone.process_serial_data ThreeMaze.trigStraight ThreeMaze.pDef
      (ThreeMaze.Standalone.process_serial_data ThreeMaze.trigStraight ThreeMaze.pDef
        ThreeMaze.Standalone.sLoggedA (some ThreeMaze.Standalone.frameA) 0 true).2
      (some ThreeMaze.Standalone.frameA) 0 true).2.log_count ≤
      ThreeMaze.Standalone.sLoggedA.log_count + 1 ∧
    (ThreeMaze.Standalone.process_serial_data ThreeMaze.trigStraight ThreeMaze.pDef
      ThreeMaze.Standalone.sLoggedA (some ThreeMaze.Standalone.frameA) 0
      true).2.log_count = ThreeMaze.Standalone.sLoggedA.log_count ∧
    (ThreeMaze.Standalone.process_serial_data ThreeMaze.trigStraight ThreeMaze.pDef
      ThreeMaze.Standalone.sLoggedA (some ThreeMaze.Standalone.frameA) 0
      true).2.duplicate_count = ThreeMaze.Standalone.sLoggedA.duplicate_count + 1 ∧
    (ThreeMaze.Standalone.process_serial_data ThreeMaze.trigStraight ThreeMaze.pDef
      (ThreeMaze.Standalone.freshen ThreeMaze.Standalone.sLoggedA)
      (some ThreeMaze.Standalone.frameA) 0 true).2.log_count =
      ThreeMaze.Standalone.sLoggedA.log_count + 1 := by
  have h := c9_theorem ThreeMaze.trigStraight ThreeMaze.pDef
    ThreeMaze.Standalone.sLoggedA ThreeMaze.Standalone.frameA 0 0 true true
  have h2 := h.2 rfl rfl
  exact ⟨h.1, h2.1, h2.2.1, h2.2.2.1⟩

namespace ThreeMaze

theorem normalize_angle_zero : normalize_angle 0 = 0 :=
  normalize_angle_of_mem (by linarith [piQ_pos]) (le_of_lt piQ_pos)

end ThreeMaze

namespace ThreeMaze.Hallway

/-- The trial-related fields (and `is_active`) that the integration and
fall-check part of a tick never touches. -/
def coreFields (s : State) : Bool × ℕ × ℕ × Bool :=
  (s.is_trial_end, s.trial_number, s.num_rewards, s.is_active)

theorem coreFields_trial_end {a b : State} (h : coreFields a = coreFields b) :
    a.is_trial_end = b.is_trial_end := congrArg Prod.fst h

theorem coreFields_trial_number {a b : State} (h : coreFields a = coreFields b) :
    a.trial_number = b.trial_number := congrArg (fun q => q.2.1) h

theorem coreFields_rewards {a b : State} (h : coreFields a = coreFields b) :
    a.num_rewards = b.num_rewards := congrArg (fun q => q.2.2.1) h

theorem cf_coreFields (p : Params) (s : State) (now : ℚ) :
    coreFields (check_fall_condition p s now) = coreFields s := by
  unfold check_fall_condition reset_player coreFields
  dsimp only
  by_cases h1 : s.pz < p.player_radius ∧ s.fall_start_time = none
  · rw [if_pos h1]
    repeat' split
    all_goals rfl
  · rw [if_neg h1]
    by_cases h2 : p.player_radius ≤ s.pz
    · rw [if_pos h2]
    · rw [if_neg h2]
      rcases hfs : s.fall_start_time with _ | t
      · rfl
      · simp only [hfs]
        repeat' split
        all_goals rfl

theorem upd_coreFields (T : TrigModel) (p : Params) (s : State) (d : SerialData) :
    coreFields (update_position_from_serial T p s d) = coreFields s := rfl

theorem tickMid_coreFields (T : TrigModel) (p : Params) (s : State)
    (d : SerialData) (now : ℚ) :
    coreFields (tickMid T p s d now) = coreFields s := by
  unfold tickMid
  dsimp only
  by_cases hf : s.is_falling = true
  · rw [if_pos hf, cf_coreFields]
  · rw [if_neg hf, cf_coreFields, upd_coreFields]

theorem initInv (p : Params) (hY : 0 < p.trial_end_y) :
    Inv p ⟨initState p, Phase.idle⟩ := by
  constructor
  · simp [initState, Inv]
  · intro _
    simpa [initState] using hY

theorem stepC1_inv (T : TrigModel) (p : Params) (hY : 0 < p.trial_end_y)
    (s : CState) (h : Inv p s) (e : Ev) : Inv p (stepC1 T p s e) := by
  cases e with
  | tick d now =>
    by_cases ha : s.base.is_active = true
    · simp only [stepC1]
      rw [if_pos ha]
      have hcore := tickMid_coreFields T p s.base d now
      by_cases hb : p.trial_end_y ≤ |(tickMid T p s.base d now).py|
      · rw [if_pos hb]
        by_cases hc : (tickMid T p s.base d now).is_trial_end = true
        · rw [if_pos hc]
          have hbase : s.base.is_trial_end = true :=
            (coreFields_trial_end hcore).symm.trans hc
          have hph : s.phase = Phase.delivering := h.1.mp hbase
          refine ⟨⟨fun _ => hph, fun _ => (coreFields_trial_end hcore).trans hbase⟩,
            fun hid => ?_⟩
          rw [hph] at hid
          simp at hid
        · rw [if_neg hc]
          refine ⟨⟨fun _ => rfl, fun _ => rfl⟩, fun hid => ?_⟩
          simp at hid
      · rw [if_neg hb]
        refine ⟨?_, fun hid => not_le.mp hb⟩
        rw [coreFields_trial_end hcore]
        exact h.1
    · simp only [stepC1]
      rw [if_neg ha]
      exact h
  | finish b =>
    rcases hph : s.phase with _ | _
    · simp only [stepC1, hph]
      exact h
    · simp only [stepC1, hph]
      refine ⟨⟨fun hfalse => by simp at hfalse, fun hid => by simp at hid⟩,
        fun _ => ?_⟩
      show |(0 : ℚ)| < p.trial_end_y
      simpa using hY

theorem stepC1_count (T : TrigModel) (p : Params) (s : CState) (h : Inv p s)
    (e : Ev) :
    (stepC1 T p s e).base.num_rewards + phaseNat (stepC1 T p s e).phase ≤
      s.base.num_rewards + phaseNat s.phase +
        (if isCross T p s e then 1 else 0) := by
  cases e with
  | tick d now =>
    by_cases ha : s.base.is_active = true
    · simp only [stepC1]
      rw [if_pos ha]
      have hcore := tickMid_coreFields T p s.base d now
      by_cases hb : p.trial_end_y ≤ |(tickMid T p s.base d now).py|
      · rw [if_pos hb]
        by_cases hc : (tickMid T p s.base d now).is_trial_end = true
        · rw [if_pos hc]
          dsimp only
          rw [coreFields_rewards hcore]
          exact Nat.le_add_right _ _
        · rw [if_neg hc]
          have hbite : s.base.is_trial_end = false := by
            rw [Bool.not_eq_true] at hc
            exact (coreFields_trial_end hcore).symm.trans hc
          have hph : s.phase = Phase.idle := by
            rcases hphe : s.phase with _ | _
            · rfl
            · exact absurd (h.1.mpr hphe) (by simp [hbite])
          have hcross : isCross T p s (Ev.tick d now) = true := by
            simp only [isCross, Bool.and_eq_true, decide_eq_true_eq]
            exact ⟨⟨ha, h.2 hph⟩, hb⟩
          rw [coreFields_rewards hcore, hcross, hph]
          simp [phaseNat]
      · rw [if_neg hb]
        dsimp only
        rw [coreFields_rewards hcore]
        exact Nat.le_add_right _ _
    · simp only [stepC1]
      rw [if_neg ha]
      exact Nat.le_add_right _ _
  | finish b =>
    rcases hph : s.phase with _ | _
    · simp only [stepC1, hph]
      exact Nat.le_add_right _ _
    · simp only [stepC1, hph]
      by_cases hbs : b = true
      · rw [if_pos hbs]
        simp [reset_player, phaseNat, isCross]
      · rw [if_neg hbs]
        simp [reset_player, phaseNat, isCross]

theorem runC1_count (T : TrigModel) (p : Params) (hY : 0 < p.trial_end_y) :
    ∀ (es : List Ev) (s : CState), Inv p s →
      (runC1 T p s es).base.num_rewards + phaseNat (runC1 T p s es).phase ≤
        s.base.num_rewards + phaseNat s.phase + crossings T p s es := by
  intro es
  induction es with
  | nil =>
    intro s h
    simp [runC1, crossings]
  | cons e es ih =>
    intro s h
    have h1 := stepC1_count T p s h e
    have h2 := ih (stepC1 T p s e) (stepC1_inv T p hY s h e)
    simp only [runC1, crossings]
    omega

end ThreeMaze.Hallway

/-- Claim C1: single-reward guarantee under cooperative interleaving of
the managed hallway experiment.  (1) From the freshly initialized
state, any schedule of ticks and delivery completions in which the
integrated position crosses the trial-end boundary at most once
increases `numRewards` by at most 1, no matter how many ticks observe
`abs(y) >= trialEndDistance` while the delivery is still pending.
(2) A tick that observes the boundary with the `isTrialEnd` flag clear
enters the handler: the flag is set on entry and the delivery becomes
pending.  (3) When the pending delivery completes the flag is cleared
again (false on exit).  (4) While the flag is true, a tick skips
trial-end handling entirely: `trialNumber`, `numRewards` and the
pending-delivery status are all unchanged. -/
theorem c1_theorem :
    (∀ (T : ThreeMaze.TrigModel) (p : ThreeMaze.Params)
        (es : List ThreeMaze.Hallway.Ev), 0 < p.trial_end_y →
      ThreeMaze.Hallway.crossings T p
        ⟨ThreeMaze.Hallway.initState p, ThreeMaze.Hallway.Phase.idle⟩ es ≤ 1 →
      (ThreeMaze.Hallway.runC1 T p
        ⟨ThreeMaze.Hallway.initState p, ThreeMaze.Hallway.Phase.idle⟩
        es).base.num_rewards ≤ 1) ∧
    (∀ (T : ThreeMaze.TrigModel) (p : ThreeMaze.Params)
        (s : ThreeMaze.Hallway.CState) (d : ThreeMaze.SerialData) (now : ℚ),
      s.base.is_active = true →
      (ThreeMaze.Hallway.tickMid T p s.base d now).is_trial_end = false →
      p.trial_end_y ≤ |(ThreeMaze.Hallway.tickMid T p s.base d now).py| →
      (ThreeMaze.Hallway.stepC1 T p s
        (ThreeMaze.Hallway.Ev.tick d now)).base.is_trial_end = true ∧
      (ThreeMaze.Hallway.stepC1 T p s (ThreeMaze.Hallway.Ev.tick d now)).phase =
        ThreeMaze.Hallway.Phase.delivering) ∧
    (∀ (T : ThreeMaze.TrigModel) (p : ThreeMaze.Params)
        (s : ThreeMaze.Hallway.CState) (b : Bool),
      s.phase = ThreeMaze.Hallway.Phase.delivering →
      (ThreeMaze.Hallway.stepC1 T p s
        (ThreeMaze.Hallway.Ev.finish b)).base.is_trial_end = false ∧
      (ThreeMaze.Hallway.stepC1 T p s (ThreeMaze.Hallway.Ev.finish b)).phase =
        ThreeMaze.Hallway.Phase.idle) ∧
    (∀ (T : ThreeMaze.TrigModel) (p : ThreeMaze.Params)
        (s : ThreeMaze.Hallway.CState) (d : ThreeMaze.SerialData) (now : ℚ),
      s.base.is_trial_end = true →
      (ThreeMaze.Hallway.stepC1 T p s
        (ThreeMaze.Hallway.Ev.tick d now)).base.trial_number =
        s.base.trial_number ∧
      (ThreeMaze.Hallway.stepC1 T p s
        (ThreeMaze.Hallway.Ev.tick d now)).base.num_rewards =
        s.base.num_rewards ∧
      (ThreeMaze.Hallway.stepC1 T p s (ThreeMaze.Hallway.Ev.tick d now)).phase =
        s.phase) := by
  refine ⟨?_, ?_, ?_, ?_⟩
  · intro T p es hY hcr
    have h := ThreeMaze.Hallway.runC1_count T p hY es
      ⟨ThreeMaze.Hallway.initState p, ThreeMaze.Hallway.Phase.idle⟩
      (ThreeMaze.Hallway.initInv p hY)
    dsimp only [ThreeMaze.Hallway.initState, ThreeMaze.Hallway.phaseNat]
      at h hcr ⊢
    omega
  · intro T p s d now ha hc hb
    simp only [ThreeMaze.Hallway.stepC1]
    rw [if_pos ha, if_pos hb, if_neg (by simp [hc])]
    exact ⟨rfl, rfl⟩
  · intro T p s b hph
    simp [ThreeMaze.Hallway.stepC1, hph]
  · intro T p s d now hte
    have hcore := ThreeMaze.Hallway.tickMid_coreFields T p s.base d now
    by_cases ha : s.base.is_active = true
    · simp only [ThreeMaze.Hallway.stepC1]
      rw [if_pos ha]
      have hc : (ThreeMaze.Hallway.tickMid T p s.base d now).is_trial_end = true :=
        (ThreeMaze.Hallway.coreFields_trial_end hcore).trans hte
      by_cases hb : p.trial_end_y ≤ |(ThreeMaze.Hallway.tickMid T p s.base d now).py|
      · rw [if_pos hb, if_pos hc]
        exact ⟨ThreeMaze.Hallway.coreFields_trial_number hcore,
          ThreeMaze.Hallway.coreFields_rewards hcore, rfl⟩
      · rw [if_neg hb]
        exact ⟨ThreeMaze.Hallway.coreFields_trial_number hcore,
          ThreeMaze.Hallway.coreFields_rewards hcore, rfl⟩
    · simp only [ThreeMaze.Hallway.stepC1]
      rw [if_neg ha]
      exact ⟨rfl, rfl, rfl⟩

/-- Claim C1 witness: `c1_theorem` at a concrete run (one boundary
crossing, one pending-delivery tick, one completion: exactly one
reward) and at concrete entry, exit and skip steps. -/
theorem c1_witness :
    (ThreeMaze.Hallway.runC1 ThreeMaze.trigStraight ThreeMaze.Hallway.pSmall
      ⟨ThreeMaze.Hallway.initState ThreeMaze.Hallway.pSmall,
        ThreeMaze.Hallway.Phase.idle⟩
      ThreeMaze.Hallway.c1Trace).base.num_rewards ≤ 1 ∧
    ((ThreeMaze.Hallway.stepC1 ThreeMaze.trigStraight ThreeMaze.pDef
      ThreeMaze.Hallway.cEntry
      (ThreeMaze.Hallway.Ev.tick ThreeMaze.Hallway.dPush 0)).base.is_trial_end =
        true ∧
      (ThreeMaze.Hallway.stepC1 ThreeMaze.trigStraight ThreeMaze.pDef
        ThreeMaze.Hallway.cEntry
        (ThreeMaze.Hallway.Ev.tick ThreeMaze.Hallway.dPush 0)).phase =
        ThreeMaze.Hallway.Phase.delivering) ∧
    ((ThreeMaze.Hallway.stepC1 ThreeMaze.trigStraight ThreeMaze.pDef
      ThreeMaze.Hallway.cDelivering
      (ThreeMaze.Hallway.Ev.finish true)).base.is_trial_end = false ∧
      (ThreeMaze.Hallway.stepC1 ThreeMaze.trigStraight ThreeMaze.pDef
        ThreeMaze.Hallway.cDelivering
        (ThreeMaze.Hallway.Ev.finish true)).phase =
        ThreeMaze.Hallway.Phase.idle) ∧
    ((ThreeMaze.Hallway.stepC1 ThreeMaze.trigStraight ThreeMaze.pDef
      ThreeMaze.Hallway.cDelivering
      (ThreeMaze.Hallway.Ev.tick ThreeMaze.Hallway.dPush 0)).base.trial_number =
        ThreeMaze.Hallway.cDelivering.base.trial_number ∧
      (ThreeMaze.Hallway.stepC1 ThreeMaze.trigStraight ThreeMaze.pDef
        ThreeMaze.Hallway.cDelivering
        (ThreeMaze.Hallway.Ev.tick ThreeMaze.Hallway.dPush 0)).base.num_rewards =
        ThreeMaze.Hallway.cDelivering.base.num_rewards ∧
      (ThreeMaze.Hallway.stepC1 ThreeMaze.trigStraight ThreeMaze.pDef
        ThreeMaze.Hallway.cDelivering
        (ThreeMaze.Hallway.Ev.tick ThreeMaze.Hallway.dPush 0)).phase =
        ThreeMaze.Hallway.cDelivering.phase) :=
  ⟨c1_theorem.1 ThreeMaze.trigStraight ThreeMaze.Hallway.pSmall
      ThreeMaze.Hallway.c1Trace (by norm_num [ThreeMaze.Hallway.pSmall])
      (by norm_num [ThreeMaze.Hallway.crossings, ThreeMaze.Hallway.isCross,
        ThreeMaze.Hallway.stepC1, ThreeMaze.Hallway.tickMid,
        ThreeMaze.Hallway.update_position_from_serial,
        ThreeMaze.Hallway.check_fall_condition, ThreeMaze.Hallway.reset_player,
        ThreeMaze.Hallway.initState, ThreeMaze.Hallway.c1Trace,
        ThreeMaze.Hallway.dPush, ThreeMaze.Hallway.pSmall, ThreeMaze.linVel,
        ThreeMaze.npClip, ThreeMaze.ENCODER_TO_CM, ThreeMaze.DT,
        ThreeMaze.ROTATION_SENSITIVITY, ThreeMaze.FALL_RESET_TIME,
        ThreeMaze.trigStraight, ThreeMaze.normalize_angle_zero]),
    c1_theorem.2.1 ThreeMaze.trigStraight ThreeMaze.pDef ThreeMaze.Hallway.cEntry
      ThreeMaze.Hallway.dPush 0 rfl
      (by norm_num [ThreeMaze.Hallway.tickMid,
        ThreeMaze.Hallway.update_position_from_serial,
        ThreeMaze.Hallway.check_fall_condition, ThreeMaze.Hallway.reset_player,
        ThreeMaze.Hallway.cEntry, ThreeMaze.Hallway.initState,
        ThreeMaze.Hallway.dPush, ThreeMaze.pDef, ThreeMaze.linVel,
        ThreeMaze.npClip, ThreeMaze.ENCODER_TO_CM, ThreeMaze.DT,
        ThreeMaze.ROTATION_SENSITIVITY, ThreeMaze.FALL_RESET_TIME,
        ThreeMaze.trigStraight, ThreeMaze.normalize_angle_zero])
      (by norm_num [ThreeMaze.Hallway.tickMid,
        ThreeMaze.Hallway.update_position_from_serial,
        ThreeMaze.Hallway.check_fall_condition, ThreeMaze.Hallway.reset_player,
        ThreeMaze.Hallway.cEntry, ThreeMaze.Hallway.initState,
        ThreeMaze.Hallway.dPush, ThreeMaze.pDef, ThreeMaze.linVel,
        ThreeMaze.npClip, ThreeMaze.ENCODER_TO_CM, ThreeMaze.DT,
        ThreeMaze.ROTATION_SENSITIVITY, ThreeMaze.FALL_RESET_TIME,
        ThreeMaze.trigStraight, ThreeMaze.normalize_angle_zero]),
    c1_theorem.2.2.1 ThreeMaze.trigStraight ThreeMaze.pDef
      ThreeMaze.Hallway.cDelivering true rfl,
    c1_theorem.2.2.2 ThreeMaze.trigStraight ThreeMaze.pDef
      ThreeMaze.Hallway.cDelivering ThreeMaze.Hallway.dPush 0 rfl⟩
